import Mathlib

/-!
IP6 beampipe geometry construction

A shallow embedding of `src/IP6BeamPipe.cpp` (`create_detector` and its three
lambdas `zplane_to_polycones`, `create_volumes`, `create_volumes_2`).

* Numbers are elements of a linear ordered field `K` (exact arithmetic); the
  theorems hold for every such field, the reals included, and are evaluated on
  the rationals.
* The constants and functions the source takes from its headers (`mm`, `M_PI`,
  `cos`, `sin`) are the fields of an environment `Env`.
* XML components are records of their already parsed attributes and children;
  `getAttrOrDefault` is `Option.getD` on an optional attribute.
* Solids are CSG trees built exactly as the source builds them; `Solid.Contains`
  gives the point set of a tree (union, difference, second operand placed by a
  transform).
-/

namespace IP6BeamPipe

/-! ## Environment -/

/-- Header-supplied constants and functions used by the source: the length unit
`mm`, the constant `M_PI`, and the libm functions `cos` and `sin` used by
`RotationY`. -/
structure Env (K : Type) where
  mm : K
  M_PI : K
  cos : K → K
  sin : K → K

/-! ## XML input -/

/-- The `IP_pipe` child of the detector element (source lines 52-63). -/
structure IPPipeXml (K : Type) where
  OD : K
  wall_thickness : K
  gold_thickness : K
  upstream_straight_length : K
  downstream_straight_length : K

/-- Reading an optional attribute with a default (`getAttrOrDefault`). -/
def getAttrOrDefault {α : Type} (attr : Option α) (dflt : α) : α :=
  attr.getD dflt

/-! ## Shapes -/

/-- The shape `Tube(rmin, rmax, dz)`: inner radius, outer radius, half-length. -/
structure Tube (K : Type) where
  rmin : K
  rmax : K
  dz : K

/-- The material handle returned by `det.material(name)`. -/
structure Material where
  name : String
deriving DecidableEq

section IP

variable {K : Type} [LinearOrderedField K]

/-! ## `create_detector`: the IP beampipe (source lines 55-119) -/

/-- Source line 55. -/
def IP_beampipe_OD (c : IPPipeXml K) : K := c.OD

/-- Source line 56. -/
def IP_beampipe_wall_thickness (c : IPPipeXml K) : K := c.wall_thickness

/-- Source line 57. -/
def IP_beampipe_gold_thickness (c : IPPipeXml K) : K := c.gold_thickness

/-- Source line 58. -/
def IP_beampipe_ID (c : IPPipeXml K) : K :=
  IP_beampipe_OD c - 2 * IP_beampipe_gold_thickness c - 2 * IP_beampipe_wall_thickness c

/-- Source line 59. -/
def IP_acts_beampipe_OD (E : Env K) (c : IPPipeXml K) : K :=
  IP_beampipe_ID c - 5 * E.mm

/-- Source line 60. -/
def IP_acts_beampipe_ID (E : Env K) (c : IPPipeXml K) : K :=
  IP_acts_beampipe_OD E c - 1 * E.mm

/-- Source line 62. -/
def upstream_straight_length (c : IPPipeXml K) : K := c.upstream_straight_length

/-- Source line 63. -/
def downstream_straight_length (c : IPPipeXml K) : K := c.downstream_straight_length

/-- Source lines 66-67. -/
def central_tube (E : Env K) (c : IPPipeXml K) : Tube K :=
  ⟨(1 / 2) * IP_acts_beampipe_ID E c, (1 / 2) * IP_acts_beampipe_OD E c,
    (1 / 2) * (upstream_straight_length c + downstream_straight_length c)⟩

/-- Source line 69. -/
def central_offset (c : IPPipeXml K) : K :=
  -(1 / 2) * (upstream_straight_length c - downstream_straight_length c)

/-- Source line 93. -/
def downstream_IP_vacuum_fill (E : Env K) (c : IPPipeXml K) : Tube K :=
  ⟨0, IP_acts_beampipe_ID E c / 2, downstream_straight_length c / 2⟩

/-- Source lines 94-95. -/
def downstream_IP_acts_beampipe (E : Env K) (c : IPPipeXml K) : Tube K :=
  ⟨IP_acts_beampipe_ID E c / 2, IP_acts_beampipe_OD E c / 2, downstream_straight_length c / 2⟩

/-- Source line 96. -/
def downstream_IP_vacuum_padding (E : Env K) (c : IPPipeXml K) : Tube K :=
  ⟨IP_acts_beampipe_OD E c / 2, IP_beampipe_ID c / 2, downstream_straight_length c / 2⟩

/-- Source lines 97-98. -/
def downstream_IP_gold (c : IPPipeXml K) : Tube K :=
  ⟨IP_beampipe_ID c / 2, IP_beampipe_ID c / 2 + IP_beampipe_gold_thickness c,
    downstream_straight_length c / 2⟩

/-- Source lines 99-100. -/
def downstream_IP_tube (c : IPPipeXml K) : Tube K :=
  ⟨IP_beampipe_ID c / 2 + IP_beampipe_gold_thickness c, IP_beampipe_OD c / 2,
    downstream_straight_length c / 2⟩

/-- Source line 102. -/
def upstream_IP_vacuum_fill (E : Env K) (c : IPPipeXml K) : Tube K :=
  ⟨0, IP_acts_beampipe_ID E c / 2, upstream_straight_length c / 2⟩

/-- Source line 103. -/
def upstream_IP_acts_beampipe (E : Env K) (c : IPPipeXml K) : Tube K :=
  ⟨IP_acts_beampipe_ID E c / 2, IP_acts_beampipe_OD E c / 2, upstream_straight_length c / 2⟩

/-- Source line 104. -/
def upstream_IP_vacuum_padding (E : Env K) (c : IPPipeXml K) : Tube K :=
  ⟨IP_acts_beampipe_OD E c / 2, IP_beampipe_ID c / 2, upstream_straight_length c / 2⟩

/-- Source lines 105-106. -/
def upstream_IP_gold (c : IPPipeXml K) : Tube K :=
  ⟨IP_beampipe_ID c / 2, IP_beampipe_ID c / 2 + IP_beampipe_gold_thickness c,
    upstream_straight_length c / 2⟩

/-- Source lines 107-108. -/
def upstream_IP_tube (c : IPPipeXml K) : Tube K :=
  ⟨IP_beampipe_ID c / 2 + IP_beampipe_gold_thickness c, IP_beampipe_OD c / 2,
    upstream_straight_length c / 2⟩

end IP

/-! ## Points and transforms (ROOT GenVector, as used by the source) -/

/-- The vector `Position(x, y, z)`. -/
@[ext]
structure Position (K : Type) where
  x : K
  y : K
  z : K

/-- The rotation `RotationY(angle)`: ROOT stores the angle with its sine and
cosine. -/
structure RotationY (K : Type) where
  fAngle : K
  fSin : K
  fCos : K

/-- The affine map `Transform3D`: a 3x3 matrix with a translation column, stored
as twelve numbers as in ROOT. -/
structure Transform3D (K : Type) where
  xx : K
  xy : K
  xz : K
  dx : K
  yx : K
  yy : K
  yz : K
  dy : K
  zx : K
  zy : K
  zz : K
  dz : K

/-- The shape `Box(dx, dy, dz)`, given by its half-lengths. -/
structure Box (K : Type) where
  dx : K
  dy : K
  dz : K

/-- The shape `Polycone(startPhi, deltaPhi, rmin, rmax, z)`; the constructor
records its five arguments. -/
structure Polycone (K : Type) where
  startPhi : K
  deltaPhi : K
  rmin : List K
  rmax : List K
  z : List K

/-- CSG trees: the three primitive shapes of the source and the two boolean
operations, whose second operand is placed by a transform. -/
inductive Solid (K : Type) where
  | tube : Tube K → Solid K
  | box : Box K → Solid K
  | polycone : Polycone K → Solid K
  | UnionSolid : Solid K → Solid K → Transform3D K → Solid K
  | SubtractionSolid : Solid K → Solid K → Transform3D K → Solid K

/-- The object `Volume(name, solid, material)`. -/
structure Volume (K : Type) where
  name : String
  solid : Solid K
  material : Material

section Geometry

variable {K : Type} [LinearOrderedField K]

/-- The constructor `RotationY(angle)`. -/
def RotationY.ofAngle (E : Env K) (angle : K) : RotationY K :=
  ⟨angle, E.sin angle, E.cos angle⟩

/-- The identity transform (the default third argument of the boolean solids). -/
def Transform3D.Identity : Transform3D K :=
  ⟨1, 0, 0, 0, 0, 1, 0, 0, 0, 0, 1, 0⟩

/-- The conversion `Transform3D(Position(x, y, z))`: a pure translation. -/
def Transform3D.ofPosition (p : Position K) : Transform3D K :=
  ⟨1, 0, 0, p.x, 0, 1, 0, p.y, 0, 0, 1, p.z⟩

/-- The conversion `Transform3D(RotationY(angle))`: the rotation sends (x, y, z)
to (cos * x + sin * z, y, cos * z - sin * x). -/
def Transform3D.ofRotationY (r : RotationY K) : Transform3D K :=
  ⟨r.fCos, 0, r.fSin, 0, 0, 1, 0, 0, -r.fSin, 0, r.fCos, 0⟩

/-- The product `a * b` of two transforms (first `b`, then `a`). -/
def Transform3D.mul (a b : Transform3D K) : Transform3D K :=
  ⟨a.xx * b.xx + a.xy * b.yx + a.xz * b.zx,
   a.xx * b.xy + a.xy * b.yy + a.xz * b.zy,
   a.xx * b.xz + a.xy * b.yz + a.xz * b.zz,
   a.xx * b.dx + a.xy * b.dy + a.xz * b.dz + a.dx,
   a.yx * b.xx + a.yy * b.yx + a.yz * b.zx,
   a.yx * b.xy + a.yy * b.yy + a.yz * b.zy,
   a.yx * b.xz + a.yy * b.yz + a.yz * b.zz,
   a.yx * b.dx + a.yy * b.dy + a.yz * b.dz + a.dy,
   a.zx * b.xx + a.zy * b.yx + a.zz * b.zx,
   a.zx * b.xy + a.zy * b.yy + a.zz * b.zy,
   a.zx * b.xz + a.zy * b.yz + a.zz * b.zz,
   a.zx * b.dx + a.zy * b.dy + a.zz * b.dz + a.dz⟩

instance : Mul (Transform3D K) := ⟨Transform3D.mul⟩

/-- The image of a point under a transform. -/
def Transform3D.apply (t : Transform3D K) (p : Position K) : Position K :=
  ⟨t.xx * p.x + t.xy * p.y + t.xz * p.z + t.dx,
   t.yx * p.x + t.yy * p.y + t.yz * p.z + t.dy,
   t.zx * p.x + t.zy * p.y + t.zz * p.z + t.dz⟩

/-- The local coordinates of a point of the mother frame in the frame placed by
`t`: the translation is removed and the transposed matrix applied, as the
geometry kernel does for the operands of a boolean solid. -/
def Transform3D.MasterToLocal (t : Transform3D K) (p : Position K) : Position K :=
  ⟨(p.x - t.dx) * t.xx + (p.y - t.dy) * t.yx + (p.z - t.dz) * t.zx,
   (p.x - t.dx) * t.xy + (p.y - t.dy) * t.yy + (p.z - t.dz) * t.zy,
   (p.x - t.dx) * t.xz + (p.y - t.dy) * t.yz + (p.z - t.dz) * t.zz⟩

/-- The squared distance between two points. -/
def Position.dist2 (p q : Position K) : K :=
  (p.x - q.x) * (p.x - q.x) + (p.y - q.y) * (p.y - q.y) + (p.z - q.z) * (p.z - q.z)

/-- Points of a tube about the z axis: |z| within the half-length and the
squared radius between the squared radii. -/
def Tube.Contains (t : Tube K) (p : Position K) : Bool :=
  decide (|p.z| ≤ t.dz) && decide (t.rmin * t.rmin ≤ p.x * p.x + p.y * p.y)
    && decide (p.x * p.x + p.y * p.y ≤ t.rmax * t.rmax)

/-- Points of a box centred at the origin. -/
def Box.Contains (b : Box K) (p : Position K) : Bool :=
  decide (|p.x| ≤ b.dx) && decide (|p.y| ≤ b.dy) && decide (|p.z| ≤ b.dz)

/-- Points between consecutive cross-sections `(z, rmin, rmax)` of a polycone:
`z` lies between two consecutive planes and the squared radius `r2` between the
squares of the linearly interpolated inner and outer radii. -/
def Polycone.sectionsContain : List (K × K × K) → K → K → Bool
  | (z0, a0, b0) :: (z1, a1, b1) :: rest, z, r2 =>
      (decide (z0 ≤ z) && decide (z ≤ z1) && decide (z0 < z1)
        && decide (((a0 * (z1 - z) + a1 * (z - z0)) / (z1 - z0))
              * ((a0 * (z1 - z) + a1 * (z - z0)) / (z1 - z0)) ≤ r2)
        && decide (r2 ≤ ((b0 * (z1 - z) + b1 * (z - z0)) / (z1 - z0))
              * ((b0 * (z1 - z) + b1 * (z - z0)) / (z1 - z0))))
      || Polycone.sectionsContain ((z1, a1, b1) :: rest) z r2
  | _, _, _ => false

/-- Points of a polycone spanning the full turn (every polycone of the source has
start 0 and extent 2 pi, so the angular range is not tested). -/
def Polycone.Contains (c : Polycone K) (p : Position K) : Bool :=
  Polycone.sectionsContain (c.z.zip (c.rmin.zip c.rmax)) p.z (p.x * p.x + p.y * p.y)

/-- Point membership of a CSG tree: union is "or", subtraction is "and not", and
the second operand is tested at the local coordinates of its placement. -/
def Solid.Contains : Solid K → Position K → Bool
  | .tube t, p => t.Contains p
  | .box b, p => b.Contains p
  | .polycone c, p => c.Contains p
  | .UnionSolid a b tf, p => a.Contains p || b.Contains (tf.MasterToLocal p)
  | .SubtractionSolid a b tf, p => a.Contains p && !(b.Contains (tf.MasterToLocal p))

/-- The point set of a solid. -/
def Solid.points (s : Solid K) : Set (Position K) :=
  {p | s.Contains p = true}

/-- The point set of a solid placed by the transform `tf`. -/
def Solid.placedPoints (s : Solid K) (tf : Transform3D K) : Set (Position K) :=
  {p | s.Contains (tf.MasterToLocal p) = true}

end Geometry

/-! ## XML pipe elements -/

/-- A `zplane` element with its attributes `OD` and `z`. -/
structure ZPlaneXml (K : Type) where
  OD : K
  z : K

/-- A pipe element (also an `additional_subtraction` element): the zplane lists
of its `vacuum` and `matter` children, in document order, and its optional
attributes. -/
structure PipeXml (K : Type) where
  vacuum : List (ZPlaneXml K)
  matter : List (ZPlaneXml K)
  crossing_angle : Option K
  axis_intersection : Option K
  thickness : Option K
  horizontal_offset : Option K
  cone_z_end : Option K
  cone_z_start : Option K
  extension_r : Option K
  extension_z : Option K
  extension_thickness : Option K

/-- The `upstream` element (source lines 344-349, 355, 359). -/
structure UpstreamXml (K : Type) where
  incoming_hadron : PipeXml K
  outgoing_lepton : PipeXml K
  additional_subtraction : List (PipeXml K)
  subtract_vacuum : Option Bool
  subtract_matter : Option Bool
  reflect : Option Bool
  place_vacuum : Option Bool

/-- The `downstream` element (source lines 369-374, 385, 392). -/
structure DownstreamXml (K : Type) where
  incoming_lepton : PipeXml K
  outgoing_hadron : PipeXml K
  additional_subtraction : PipeXml K
  subtract_vacuum : Option Bool
  subtract_matter : Option Bool
  reflect : Option Bool
  place_vacuum : Option Bool

/-- The detector element handed to `create_detector`. -/
structure DetXml (K : Type) where
  IP_pipe : IPPipeXml K
  upstream : UpstreamXml K
  downstream : DownstreamXml K

/-- Where an IP volume is placed: in the assembly or in the central volume. -/
inductive Mother where
  | assembly
  | central_volume
deriving DecidableEq

/-- One call `mother.placeVolume(volume, Position(...))`. -/
structure PlacedVolume (K : Type) where
  mother : Mother
  volume : Volume K
  position : Position K

/-- The volumes built by `create_detector` and the placements of the IP volumes
(source lines 126-140). -/
structure DetectorGeometry (K : Type) where
  central_volume : Volume K
  v_downstream_IP_vacuum_fill : Volume K
  v_downstream_IP_acts_beampipe : Volume K
  v_downstream_IP_vacuum_padding : Volume K
  v_downstream_IP_gold : Volume K
  v_downstream_IP_tube : Volume K
  v_upstream_IP_vacuum_fill : Volume K
  v_upstream_IP_acts_beampipe : Volume K
  v_upstream_IP_vacuum_padding : Volume K
  v_upstream_IP_gold : Volume K
  v_upstream_IP_tube : Volume K
  IP_placements : List (PlacedVolume K)
  central_placement : PlacedVolume K
  volumes_upstream : Volume K × Volume K
  volumes_downstream : Volume K × Volume K

/-- The lookup `det.material(name)`. -/
def material (name : String) : Material := ⟨name⟩

/-- Source line 46. -/
def m_Al : Material := material "Aluminum"

/-- Source line 47. -/
def m_Be : Material := material "Beryllium"

/-- Source line 48. -/
def m_Au : Material := material "Gold"

/-- Source line 49. -/
def m_Vacuum : Material := material "Vacuum"

section Lambdas

variable {K : Type} [LinearOrderedField K]

/-! ## `zplane_to_polycones` (source lines 153-174) -/

/-- The body of the zplane loops (lines 158-161 and 167-170): one `push_back` on
each of the vectors `rmin`, `rmax`, `z`, kept here in that order. -/
def zplane_push (acc : List K × List K × List K) (x_zplane : ZPlaneXml K) :
    List K × List K × List K :=
  (acc.1 ++ [0], acc.2.1 ++ [x_zplane.OD / 2], acc.2.2 ++ [x_zplane.z])

/-- A zplane loop: the three vectors start empty and the body runs once per
`zplane` child, in document order. -/
def zplane_loop (zplanes : List (ZPlaneXml K)) : List K × List K × List K :=
  zplanes.foldl zplane_push ([], [], [])

/-- The lambda `zplane_to_polycones`: the pair (matter polycone, vacuum
polycone). -/
def zplane_to_polycones (E : Env K) (x_pipe : PipeXml K) : Polycone K × Polycone K :=
  (⟨0, 2 * E.M_PI, (zplane_loop x_pipe.matter).1, (zplane_loop x_pipe.matter).2.1,
      (zplane_loop x_pipe.matter).2.2⟩,
   ⟨0, 2 * E.M_PI, (zplane_loop x_pipe.vacuum).1, (zplane_loop x_pipe.vacuum).2.1,
      (zplane_loop x_pipe.vacuum).2.2⟩)

/-! ## `create_volumes` (source lines 177-222) -/

/-- Source lines 186-187: the transform `tf`. -/
def create_volumes.tf (E : Env K) (x_pipe2 : PipeXml K) : Transform3D K :=
  Transform3D.ofPosition ⟨0, 0, getAttrOrDefault x_pipe2.axis_intersection 0⟩
    * Transform3D.ofRotationY (RotationY.ofAngle E (getAttrOrDefault x_pipe2.crossing_angle 0))
    * Transform3D.ofPosition ⟨0, 0, -getAttrOrDefault x_pipe2.axis_intersection 0⟩

/-- Source line 190. -/
def create_volumes.matter_union (E : Env K) (x_pipe1 x_pipe2 : PipeXml K) : Solid K :=
  .UnionSolid (.polycone (zplane_to_polycones E x_pipe1).1)
    (.polycone (zplane_to_polycones E x_pipe2).1) (create_volumes.tf E x_pipe2)

/-- Source line 191. -/
def create_volumes.vacuum_union (E : Env K) (x_pipe1 x_pipe2 : PipeXml K) : Solid K :=
  .UnionSolid (.polycone (zplane_to_polycones E x_pipe1).2)
    (.polycone (zplane_to_polycones E x_pipe2).2) (create_volumes.tf E x_pipe2)

/-- Source lines 214-216: the transform of one additional subtraction. -/
def create_volumes.additional_tf (E : Env K) (x_additional_subtraction : PipeXml K) :
    Transform3D K :=
  Transform3D.ofPosition ⟨0, 0, getAttrOrDefault x_additional_subtraction.axis_intersection 0⟩
    * Transform3D.ofRotationY
        (RotationY.ofAngle E (getAttrOrDefault x_additional_subtraction.crossing_angle 0))
    * Transform3D.ofPosition ⟨0, 0, -getAttrOrDefault x_additional_subtraction.axis_intersection 0⟩

/-- Source lines 210-217: the body of the additional-subtraction loop. -/
def create_volumes.subtract_additional (E : Env K) (matter : Solid K)
    (x_additional_subtraction : PipeXml K) : Solid K :=
  .SubtractionSolid matter (.polycone (zplane_to_polycones E x_additional_subtraction).2)
    (create_volumes.additional_tf E x_additional_subtraction)

/-- Source lines 194-199 and 209-218: the solid `matter` at the return. -/
def create_volumes.matter (E : Env K) (x_pipe1 x_pipe2 : PipeXml K)
    (x_additional_subtraction_i : List (PipeXml K)) (subtract_vacuum_from_matter : Bool) :
    Solid K :=
  x_additional_subtraction_i.foldl (create_volumes.subtract_additional E)
    (if subtract_vacuum_from_matter then
      .SubtractionSolid (create_volumes.matter_union E x_pipe1 x_pipe2)
        (create_volumes.vacuum_union E x_pipe1 x_pipe2) Transform3D.Identity
    else create_volumes.matter_union E x_pipe1 x_pipe2)

/-- Source lines 201-206: the solid `vacuum`. -/
def create_volumes.vacuum (E : Env K) (x_pipe1 x_pipe2 : PipeXml K)
    (subtract_matter_from_vacuum : Bool) : Solid K :=
  if subtract_matter_from_vacuum then
    .SubtractionSolid (create_volumes.vacuum_union E x_pipe1 x_pipe2)
      (create_volumes.matter_union E x_pipe1 x_pipe2) Transform3D.Identity
  else create_volumes.vacuum_union E x_pipe1 x_pipe2

/-- The lambda `create_volumes`: the pair (matter volume, vacuum volume) of lines
220-221. -/
def create_volumes (E : Env K) (name : String) (x_pipe1 x_pipe2 : PipeXml K)
    (x_additional_subtraction_i : List (PipeXml K))
    (subtract_vacuum_from_matter subtract_matter_from_vacuum : Bool) : Volume K × Volume K :=
  (⟨"v_" ++ name ++ "_matter",
      create_volumes.matter E x_pipe1 x_pipe2 x_additional_subtraction_i
        subtract_vacuum_from_matter, m_Al⟩,
   ⟨"v_" ++ name ++ "_vacuum",
      create_volumes.vacuum E x_pipe1 x_pipe2 subtract_matter_from_vacuum, m_Vacuum⟩)

end Lambdas

section Downstream

variable {K : Type} [LinearOrderedField K]

/-! ## `create_volumes_2` (source lines 225-336) -/

/-- Source lines 243-245: the transform `tf`, built with `std::abs` of the
crossing angle. -/
def create_volumes_2.tf (E : Env K) (x_pipe2 : PipeXml K) : Transform3D K :=
  Transform3D.ofPosition ⟨0, 0, getAttrOrDefault x_pipe2.axis_intersection 0⟩
    * Transform3D.ofRotationY
        (RotationY.ofAngle E |getAttrOrDefault x_pipe2.crossing_angle 0|)
    * Transform3D.ofPosition ⟨0, 0, -getAttrOrDefault x_pipe2.axis_intersection 0⟩

/-- Source line 249. -/
def create_volumes_2.box_cut_sizex (E : Env K) : K := 10000 * E.mm

/-- Source line 250. -/
def create_volumes_2.box_cut_sizey (E : Env K) : K := 10000 * E.mm

/-- Source line 251. -/
def create_volumes_2.box_cut_sizez (E : Env K) : K := 10000 * E.mm

/-- Source line 252. -/
def create_volumes_2.box_cut (E : Env K) : Box K :=
  ⟨create_volumes_2.box_cut_sizex E, create_volumes_2.box_cut_sizey E,
    create_volumes_2.box_cut_sizez E⟩

/-- Source line 255. -/
def create_volumes_2.p_mat_1 (x_pipe2 : PipeXml K) : Position K :=
  ⟨getAttrOrDefault x_pipe2.horizontal_offset 0, 0, 0⟩

/-- Source line 256. -/
def create_volumes_2.p_vac_1 (x_pipe2 : PipeXml K) : Position K :=
  ⟨getAttrOrDefault x_pipe2.horizontal_offset 0 - getAttrOrDefault x_pipe2.thickness 0, 0, 0⟩

/-- Source line 267. -/
def create_volumes_2.p_mat_2 (x_pipe2 : PipeXml K) : Position K :=
  ⟨0, 0, getAttrOrDefault x_pipe2.cone_z_end 0 + getAttrOrDefault x_pipe2.thickness 0⟩

/-- Source line 268. -/
def create_volumes_2.p_vac_2 (x_pipe2 : PipeXml K) : Position K :=
  ⟨0, 0, getAttrOrDefault x_pipe2.cone_z_end 0⟩

/-- Source line 280. -/
def create_volumes_2.p_mat_3 (x_pipe2 : PipeXml K) : Position K :=
  ⟨0, 0, getAttrOrDefault x_pipe2.cone_z_start 0 - getAttrOrDefault x_pipe2.thickness 0⟩

/-- Source line 281. -/
def create_volumes_2.p_vac_3 (x_pipe2 : PipeXml K) : Position K :=
  ⟨0, 0, getAttrOrDefault x_pipe2.cone_z_start 0⟩

/-- Source lines 259-261 and 263-265: the centre of a horizontal cutting box,
from `p_mat_1` or `p_vac_1`. -/
def create_volumes_2.box_centre_1 (E : Env K) (p : Position K) : Position K :=
  ⟨p.x + create_volumes_2.box_cut_sizex E, p.y, p.z⟩

/-- Source lines 271-273 and 275-277: the centre of a cutting box on the side
opposite the IP, from `p_mat_2` or `p_vac_2`. -/
def create_volumes_2.box_centre_2 (E : Env K) (p : Position K) : Position K :=
  ⟨p.x, p.y, p.z + create_volumes_2.box_cut_sizez E⟩

/-- Source lines 284-286 and 288-290: the centre of a cutting box on the IP side,
from `p_mat_3` or `p_vac_3`. -/
def create_volumes_2.box_centre_3 (E : Env K) (p : Position K) : Position K :=
  ⟨p.x, p.y, p.z - create_volumes_2.box_cut_sizez E⟩

/-- Source lines 258-290: the three successive box subtractions applied to a
polycone, with the box positions `p1`, `p2`, `p3`. -/
def create_volumes_2.cut (E : Env K) (x_pipe2 : PipeXml K) (c : Polycone K)
    (p1 p2 p3 : Position K) : Solid K :=
  .SubtractionSolid
    (.SubtractionSolid
      (.SubtractionSolid (.polycone c) (.box (create_volumes_2.box_cut E))
        (create_volumes_2.tf E x_pipe2
          * Transform3D.ofPosition (create_volumes_2.box_centre_1 E p1)))
      (.box (create_volumes_2.box_cut E))
      (create_volumes_2.tf E x_pipe2
        * Transform3D.ofPosition (create_volumes_2.box_centre_2 E p2)))
    (.box (create_volumes_2.box_cut E))
    (create_volumes_2.tf E x_pipe2
      * Transform3D.ofPosition (create_volumes_2.box_centre_3 E p3))

/-- Source line 292. -/
def create_volumes_2.tb_vac (E : Env K) (x_pipe2 : PipeXml K) : Tube K :=
  ⟨0 * E.mm, getAttrOrDefault x_pipe2.extension_r 0, getAttrOrDefault x_pipe2.extension_z 0⟩

/-- Source line 293. -/
def create_volumes_2.tb_mat (E : Env K) (x_pipe2 : PipeXml K) : Tube K :=
  ⟨0 * E.mm,
    getAttrOrDefault x_pipe2.extension_r 0 + getAttrOrDefault x_pipe2.extension_thickness 0,
    getAttrOrDefault x_pipe2.extension_z 0⟩

/-- Source lines 296-297 and 300-301: the placement of the extension tubes. -/
def create_volumes_2.extension_tf (E : Env K) (x_pipe2 : PipeXml K) : Transform3D K :=
  create_volumes_2.tf E x_pipe2
    * Transform3D.ofRotationY (RotationY.ofAngle E (getAttrOrDefault x_pipe2.crossing_angle 0))
    * Transform3D.ofPosition ⟨0, 0, getAttrOrDefault x_pipe2.cone_z_end 0⟩

/-- The solid `pipe2_polycones_vac_cut` after line 297: the cut hadron vacuum
with its extension. -/
def create_volumes_2.pipe2_polycones_vac_cut (E : Env K) (x_pipe2 : PipeXml K) : Solid K :=
  .UnionSolid
    (create_volumes_2.cut E x_pipe2 (zplane_to_polycones E x_pipe2).2
      (create_volumes_2.p_vac_1 x_pipe2) (create_volumes_2.p_vac_2 x_pipe2)
      (create_volumes_2.p_vac_3 x_pipe2))
    (.tube (create_volumes_2.tb_vac E x_pipe2)) (create_volumes_2.extension_tf E x_pipe2)

/-- The solid `pipe2_polycones_mat_cut` after line 301: the cut hadron matter
with its extension. -/
def create_volumes_2.mat_cut_extended (E : Env K) (x_pipe2 : PipeXml K) : Solid K :=
  .UnionSolid
    (create_volumes_2.cut E x_pipe2 (zplane_to_polycones E x_pipe2).1
      (create_volumes_2.p_mat_1 x_pipe2) (create_volumes_2.p_mat_2 x_pipe2)
      (create_volumes_2.p_mat_3 x_pipe2))
    (.tube (create_volumes_2.tb_mat E x_pipe2)) (create_volumes_2.extension_tf E x_pipe2)

/-- The solid `pipe2_polycones_mat_cut` after line 308: the hadron vacuum is
subtracted when the flag is set (lines 304-306), then the lepton matter polycone
is united (line 308). -/
def create_volumes_2.pipe2_polycones_mat_cut (E : Env K) (x_pipe1 x_pipe2 : PipeXml K)
    (subtract_vacuum_from_matter : Bool) : Solid K :=
  .UnionSolid
    (if subtract_vacuum_from_matter then
      .SubtractionSolid (create_volumes_2.mat_cut_extended E x_pipe2)
        (create_volumes_2.pipe2_polycones_vac_cut E x_pipe2) Transform3D.Identity
    else create_volumes_2.mat_cut_extended E x_pipe2)
    (.polycone (zplane_to_polycones E x_pipe1).1) (create_volumes_2.tf E x_pipe2)

/-- The solid `matter` after lines 310-316, before the additional vacuum is
treated. -/
def create_volumes_2.matter_before (E : Env K) (x_pipe1 x_pipe2 : PipeXml K)
    (subtract_vacuum_from_matter : Bool) : Solid K :=
  if subtract_vacuum_from_matter then
    .SubtractionSolid
      (create_volumes_2.pipe2_polycones_mat_cut E x_pipe1 x_pipe2 subtract_vacuum_from_matter)
      (.polycone (zplane_to_polycones E x_pipe1).2) (create_volumes_2.tf E x_pipe2)
  else create_volumes_2.pipe2_polycones_mat_cut E x_pipe1 x_pipe2 subtract_vacuum_from_matter

/-- Source line 318: the union of the hadron and lepton vacuum. -/
def create_volumes_2.vacuum_union (E : Env K) (x_pipe1 x_pipe2 : PipeXml K) : Solid K :=
  .UnionSolid (create_volumes_2.pipe2_polycones_vac_cut E x_pipe2)
    (.polycone (zplane_to_polycones E x_pipe1).2) (create_volumes_2.tf E x_pipe2)

/-- The solid `vacuum` after lines 318-323, before the additional vacuum is
treated. -/
def create_volumes_2.vacuum_before (E : Env K) (x_pipe1 x_pipe2 : PipeXml K)
    (subtract_vacuum_from_matter subtract_matter_from_vacuum : Bool) : Solid K :=
  if subtract_matter_from_vacuum then
    .SubtractionSolid (create_volumes_2.vacuum_union E x_pipe1 x_pipe2)
      (create_volumes_2.matter_before E x_pipe1 x_pipe2 subtract_vacuum_from_matter)
      Transform3D.Identity
  else create_volumes_2.vacuum_union E x_pipe1 x_pipe2

/-- Source lines 327-328. -/
def create_volumes_2.additional_tf (E : Env K) (x_additional_subtraction : PipeXml K) :
    Transform3D K :=
  Transform3D.ofRotationY
    (RotationY.ofAngle E (getAttrOrDefault x_additional_subtraction.crossing_angle 0))

/-- The lambda `create_volumes_2`: lines 331-332 build the final `matter` and
`vacuum`, lines 334-335 the returned pair. -/
def create_volumes_2 (E : Env K) (name : String) (x_pipe1 x_pipe2 : PipeXml K)
    (x_additional_subtraction : PipeXml K)
    (subtract_vacuum_from_matter subtract_matter_from_vacuum : Bool) : Volume K × Volume K :=
  (⟨"v_" ++ name ++ "_matter",
      .SubtractionSolid
        (create_volumes_2.matter_before E x_pipe1 x_pipe2 subtract_vacuum_from_matter)
        (.polycone (zplane_to_polycones E x_additional_subtraction).2)
        (create_volumes_2.tf E x_pipe2
          * create_volumes_2.additional_tf E x_additional_subtraction), m_Al⟩,
   ⟨"v_" ++ name ++ "_vacuum",
      .UnionSolid
        (create_volumes_2.vacuum_before E x_pipe1 x_pipe2 subtract_vacuum_from_matter
          subtract_matter_from_vacuum)
        (.polycone (zplane_to_polycones E x_additional_subtraction).2)
        (create_volumes_2.tf E x_pipe2
          * create_volumes_2.additional_tf E x_additional_subtraction), m_Vacuum⟩)

/-- The low-x face of the horizontal cutting box built from `p` (lines 258-265):
the box centre minus the half-length. -/
def create_volumes_2.face_x (E : Env K) (p : Position K) : K :=
  (create_volumes_2.box_centre_1 E p).x - (create_volumes_2.box_cut E).dx

/-- The low-z face of the cutting box on the side opposite the IP built from `p`
(lines 270-277). -/
def create_volumes_2.face_z_end (E : Env K) (p : Position K) : K :=
  (create_volumes_2.box_centre_2 E p).z - (create_volumes_2.box_cut E).dz

/-- The high-z face of the cutting box on the IP side built from `p` (lines
283-290). -/
def create_volumes_2.face_z_start (E : Env K) (p : Position K) : K :=
  (create_volumes_2.box_centre_3 E p).z + (create_volumes_2.box_cut E).dz

/-! ## `create_detector`: volumes and IP placements -/

/-- The function `create_detector`: the IP volumes (lines 68 and 110-119), the
placements of the IP volumes (lines 126-140), and the upstream and downstream
volume pairs (lines 350-352 and 376-377). -/
def create_detector (E : Env K) (x_det : DetXml K) : DetectorGeometry K :=
  let c := x_det.IP_pipe
  let central_volume : Volume K :=
    ⟨"acts_central_beampipe_vol", .tube (central_tube E c), m_Vacuum⟩
  let v_downstream_IP_vacuum_fill : Volume K :=
    ⟨"v_downstream_IP_vacuum_fill", .tube (downstream_IP_vacuum_fill E c), m_Vacuum⟩
  let v_downstream_IP_acts_beampipe : Volume K :=
    ⟨"v_downstream_IP_acts_beampipe", .tube (downstream_IP_acts_beampipe E c), m_Vacuum⟩
  let v_downstream_IP_vacuum_padding : Volume K :=
    ⟨"v_downstream_IP_vacuum_padding", .tube (downstream_IP_vacuum_padding E c), m_Vacuum⟩
  let v_downstream_IP_gold : Volume K :=
    ⟨"v_downstream_IP_gold", .tube (downstream_IP_gold c), m_Au⟩
  let v_downstream_IP_tube : Volume K :=
    ⟨"v_downstream_IP_tube", .tube (downstream_IP_tube c), m_Be⟩
  let v_upstream_IP_vacuum_fill : Volume K :=
    ⟨"v_upstream_IP_vacuum_fill", .tube (upstream_IP_vacuum_fill E c), m_Vacuum⟩
  let v_upstream_IP_acts_beampipe : Volume K :=
    ⟨"v_upstream_IP_acts_beampipe", .tube (upstream_IP_acts_beampipe E c), m_Vacuum⟩
  let v_upstream_IP_vacuum_padding : Volume K :=
    ⟨"v_upstream_IP_vacuum_padding", .tube (upstream_IP_vacuum_padding E c), m_Vacuum⟩
  let v_upstream_IP_gold : Volume K :=
    ⟨"v_upstream_IP_gold", .tube (upstream_IP_gold c), m_Au⟩
  let v_upstream_IP_tube : Volume K :=
    ⟨"v_upstream_IP_tube", .tube (upstream_IP_tube c), m_Be⟩
  { central_volume := central_volume
    v_downstream_IP_vacuum_fill := v_downstream_IP_vacuum_fill
    v_downstream_IP_acts_beampipe := v_downstream_IP_acts_beampipe
    v_downstream_IP_vacuum_padding := v_downstream_IP_vacuum_padding
    v_downstream_IP_gold := v_downstream_IP_gold
    v_downstream_IP_tube := v_downstream_IP_tube
    v_upstream_IP_vacuum_fill := v_upstream_IP_vacuum_fill
    v_upstream_IP_acts_beampipe := v_upstream_IP_acts_beampipe
    v_upstream_IP_vacuum_padding := v_upstream_IP_vacuum_padding
    v_upstream_IP_gold := v_upstream_IP_gold
    v_upstream_IP_tube := v_upstream_IP_tube
    IP_placements :=
      [⟨.assembly, v_upstream_IP_vacuum_fill, ⟨0, 0, -upstream_straight_length c / 2⟩⟩,
       ⟨.central_volume, v_upstream_IP_acts_beampipe,
         ⟨0, 0, -upstream_straight_length c / 2 - central_offset c⟩⟩,
       ⟨.assembly, v_upstream_IP_vacuum_padding, ⟨0, 0, -upstream_straight_length c / 2⟩⟩,
       ⟨.assembly, v_upstream_IP_gold, ⟨0, 0, -upstream_straight_length c / 2⟩⟩,
       ⟨.assembly, v_upstream_IP_tube, ⟨0, 0, -upstream_straight_length c / 2⟩⟩,
       ⟨.assembly, v_downstream_IP_vacuum_fill, ⟨0, 0, downstream_straight_length c / 2⟩⟩,
       ⟨.central_volume, v_downstream_IP_acts_beampipe,
         ⟨0, 0, downstream_straight_length c / 2 - central_offset c⟩⟩,
       ⟨.assembly, v_downstream_IP_vacuum_padding, ⟨0, 0, downstream_straight_length c / 2⟩⟩,
       ⟨.assembly, v_downstream_IP_gold, ⟨0, 0, downstream_straight_length c / 2⟩⟩,
       ⟨.assembly, v_downstream_IP_tube, ⟨0, 0, downstream_straight_length c / 2⟩⟩]
    central_placement := ⟨.assembly, central_volume, ⟨0, 0, central_offset c⟩⟩
    volumes_upstream :=
      create_volumes E "upstream" x_det.upstream.outgoing_lepton x_det.upstream.incoming_hadron
        x_det.upstream.additional_subtraction
        (getAttrOrDefault x_det.upstream.subtract_vacuum true)
        (getAttrOrDefault x_det.upstream.subtract_matter true)
    volumes_downstream :=
      create_volumes_2 E "downstream" x_det.downstream.incoming_lepton
        x_det.downstream.outgoing_hadron x_det.downstream.additional_subtraction
        (getAttrOrDefault x_det.downstream.subtract_vacuum true)
        (getAttrOrDefault x_det.downstream.subtract_matter true) }

end Downstream

/-! ## Concrete inputs used to evaluate the definitions -/

/-- An environment over the rationals with `mm = 1/10`; `cos` and `sin` are only
evaluated at angle `0` in the concrete inputs, where this table is exact. -/
def envQ : Env ℚ := ⟨1 / 10, 355 / 113, fun _ => 1, fun _ => 0⟩

/-- An `IP_pipe` element: OD 62 mm, wall 1 mm, gold 1/2 mm, straight lengths
80 mm and 70 mm (in units where `mm = 1/10`). -/
def ipPipeQ : IPPipeXml ℚ := ⟨62 / 10, 1 / 10, 1 / 20, 8, 7⟩

/-- An outgoing-hadron pipe: matter radius 10, vacuum radius 8 on z in [0, 10],
thickness 2, horizontal offset 100, cone from z = 0 to z = 10, an extension of
radius 8, half-length 1 and thickness 2; no crossing angle. -/
def hadronQ : PipeXml ℚ :=
  ⟨[⟨16, 0⟩, ⟨16, 10⟩], [⟨20, 0⟩, ⟨20, 10⟩], none, none, some 2, some 100, some 10, some 0,
    some 8, some 1, some 2⟩

/-- An incoming-lepton pipe: matter radius 2, vacuum radius 1 on z in [0, 10]. -/
def leptonQ : PipeXml ℚ :=
  ⟨[⟨2, 0⟩, ⟨2, 10⟩], [⟨4, 0⟩, ⟨4, 10⟩], none, none, none, none, none, none, none, none, none⟩

/-- An additional subtraction far from the pipes: radius 1/2 on z in [100, 110]. -/
def additionalQ : PipeXml ℚ :=
  ⟨[⟨1, 100⟩, ⟨1, 110⟩], [⟨1, 100⟩, ⟨1, 110⟩], none, none, none, none, none, none, none,
    none, none⟩

/-- A point of the lepton pipe wall, inside the hadron vacuum. -/
def pointQ : Position ℚ := ⟨3 / 2, 0, 5⟩

/-- An outgoing-hadron pipe like `hadronQ` whose zplanes run from z = 0 to
z = 3000, beyond the far end of the cutting boxes (which are 2000 long when
mm = 1/10). -/
def longHadronQ : PipeXml ℚ :=
  ⟨[⟨16, 0⟩, ⟨16, 3000⟩], [⟨20, 0⟩, ⟨20, 3000⟩], none, none, some 2, some 100, some 10,
    some 0, some 8, some 1, some 2⟩

/-- A point on the axis of `longHadronQ` at z = 2011, between the far faces of
the vacuum box (z = 2010) and of the matter box (z = 2012) that cut on the side
opposite the IP. -/
def farQ : Position ℚ := ⟨0, 0, 2011⟩

/-- A detector element: the IP pipe `ipPipeQ` (straight lengths 8 upstream and 7
downstream), the pipes above on both sides, and no optional flag set. -/
def detXmlQ : DetXml ℚ :=
  ⟨ipPipeQ, ⟨hadronQ, leptonQ, [additionalQ], none, none, none, none⟩,
    ⟨leptonQ, hadronQ, additionalQ, none, none, none, none⟩⟩

section Extents

variable {K : Type} [LinearOrderedField K]

/-! ## z extents of the placed IP volumes -/

/-- The tube of a volume whose solid is a tube. -/
def Volume.tube? (v : Volume K) : Option (Tube K) :=
  match v.solid with
  | .tube t => some t
  | _ => none

/-- The z coordinate, in the assembly frame, of the centre of a placed IP volume:
a volume placed in the central volume is shifted by the position at which the
central volume itself is placed in the assembly (line 140). -/
def DetectorGeometry.assembly_z (g : DetectorGeometry K) (pv : PlacedVolume K) : K :=
  match pv.mother with
  | .assembly => pv.position.z
  | .central_volume => g.central_placement.position.z + pv.position.z

/-- The z range (lower end, upper end), in the assembly frame, of a placed tube:
its centre minus and plus its half-length. -/
def DetectorGeometry.zExtent (g : DetectorGeometry K) (pv : PlacedVolume K) :
    Option (K × K) :=
  (pv.volume.tube?).map (fun t => (g.assembly_z pv - t.dz, g.assembly_z pv + t.dz))

/-- The placed tube `pv` occupies the coordinate `z` of the assembly frame. -/
def DetectorGeometry.occupies (g : DetectorGeometry K) (pv : PlacedVolume K) (z : K) : Prop :=
  match g.zExtent pv with
  | some e => e.1 ≤ z ∧ z ≤ e.2
  | none => False

/-- Source lines 127-128: the placement of the upstream fake ACTS beampipe in the
central volume. -/
def upstream_acts_placement (E : Env K) (x_det : DetXml K) : PlacedVolume K :=
  ⟨.central_volume, (create_detector E x_det).v_upstream_IP_acts_beampipe,
    ⟨0, 0, -upstream_straight_length x_det.IP_pipe / 2 - central_offset x_det.IP_pipe⟩⟩

/-- Source lines 134-135: the placement of the downstream fake ACTS beampipe in
the central volume. -/
def downstream_acts_placement (E : Env K) (x_det : DetXml K) : PlacedVolume K :=
  ⟨.central_volume, (create_detector E x_det).v_downstream_IP_acts_beampipe,
    ⟨0, 0, downstream_straight_length x_det.IP_pipe / 2 - central_offset x_det.IP_pipe⟩⟩

end Extents

section IPTheorems

variable {K : Type} [LinearOrderedField K]

/-- C1: for gold_thickness >= 0, wall_thickness >= 0 and
OD >= 2*gold + 2*wall + 6 mm (with the unit mm positive), the five IP tubes of
each side have rmin and rmax equal to consecutive members of
r0 = 0, r1 = IP_acts_beampipe_ID/2, r2 = IP_acts_beampipe_OD/2,
r3 = IP_beampipe_ID/2, r4 = IP_beampipe_ID/2 + gold_thickness, r5 = OD/2, in the
order vacuum fill, fake ACTS beampipe, vacuum padding, gold, Be tube, and
0 = r0 <= r1 <= r2 <= r3 <= r4 <= r5 = OD/2. -/
theorem C1_IP_tubes_partition (E : Env K) (c : IPPipeXml K) (hmm : 0 < E.mm)
    (hg : 0 ≤ c.gold_thickness) (hw : 0 ≤ c.wall_thickness)
    (hOD : 2 * c.gold_thickness + 2 * c.wall_thickness + 6 * E.mm ≤ c.OD) :
    ((downstream_IP_vacuum_fill E c).rmin = 0
        ∧ (downstream_IP_vacuum_fill E c).rmax = IP_acts_beampipe_ID E c / 2
        ∧ (downstream_IP_acts_beampipe E c).rmin = IP_acts_beampipe_ID E c / 2
        ∧ (downstream_IP_acts_beampipe E c).rmax = IP_acts_beampipe_OD E c / 2
        ∧ (downstream_IP_vacuum_padding E c).rmin = IP_acts_beampipe_OD E c / 2
        ∧ (downstream_IP_vacuum_padding E c).rmax = IP_beampipe_ID c / 2
        ∧ (downstream_IP_gold c).rmin = IP_beampipe_ID c / 2
        ∧ (downstream_IP_gold c).rmax = IP_beampipe_ID c / 2 + c.gold_thickness
        ∧ (downstream_IP_tube c).rmin = IP_beampipe_ID c / 2 + c.gold_thickness
        ∧ (downstream_IP_tube c).rmax = c.OD / 2)
      ∧ ((upstream_IP_vacuum_fill E c).rmin = 0
        ∧ (upstream_IP_vacuum_fill E c).rmax = IP_acts_beampipe_ID E c / 2
        ∧ (upstream_IP_acts_beampipe E c).rmin = IP_acts_beampipe_ID E c / 2
        ∧ (upstream_IP_acts_beampipe E c).rmax = IP_acts_beampipe_OD E c / 2
        ∧ (upstream_IP_vacuum_padding E c).rmin = IP_acts_beampipe_OD E c / 2
        ∧ (upstream_IP_vacuum_padding E c).rmax = IP_beampipe_ID c / 2
        ∧ (upstream_IP_gold c).rmin = IP_beampipe_ID c / 2
        ∧ (upstream_IP_gold c).rmax = IP_beampipe_ID c / 2 + c.gold_thickness
        ∧ (upstream_IP_tube c).rmin = IP_beampipe_ID c / 2 + c.gold_thickness
        ∧ (upstream_IP_tube c).rmax = c.OD / 2)
      ∧ (0 ≤ IP_acts_beampipe_ID E c / 2
        ∧ IP_acts_beampipe_ID E c / 2 ≤ IP_acts_beampipe_OD E c / 2
        ∧ IP_acts_beampipe_OD E c / 2 ≤ IP_beampipe_ID c / 2
        ∧ IP_beampipe_ID c / 2 ≤ IP_beampipe_ID c / 2 + c.gold_thickness
        ∧ IP_beampipe_ID c / 2 + c.gold_thickness ≤ c.OD / 2) := by
  refine ⟨⟨rfl, rfl, rfl, rfl, rfl, rfl, rfl, rfl, rfl, rfl⟩,
    ⟨rfl, rfl, rfl, rfl, rfl, rfl, rfl, rfl, rfl, rfl⟩, ?_⟩
  simp only [IP_acts_beampipe_ID, IP_acts_beampipe_OD, IP_beampipe_ID, IP_beampipe_OD,
    IP_beampipe_gold_thickness, IP_beampipe_wall_thickness]
  refine ⟨?_, ?_, ?_, ?_, ?_⟩ <;> linarith

/-- Evaluation of C1 on `ipPipeQ`: OD 62 mm, wall 1 mm, gold 1/2 mm. -/
theorem C1_IP_tubes_partition_witness :
    (0 : ℚ) < envQ.mm ∧ 0 ≤ ipPipeQ.gold_thickness ∧ 0 ≤ ipPipeQ.wall_thickness
      ∧ 2 * ipPipeQ.gold_thickness + 2 * ipPipeQ.wall_thickness + 6 * envQ.mm ≤ ipPipeQ.OD
      ∧ (upstream_IP_vacuum_padding envQ ipPipeQ).rmax ≤ (upstream_IP_gold ipPipeQ).rmax := by
  have hmm : (0 : ℚ) < envQ.mm := by norm_num [envQ]
  have hg : (0 : ℚ) ≤ ipPipeQ.gold_thickness := by norm_num [ipPipeQ]
  have hw : (0 : ℚ) ≤ ipPipeQ.wall_thickness := by norm_num [ipPipeQ]
  have hOD : 2 * ipPipeQ.gold_thickness + 2 * ipPipeQ.wall_thickness + 6 * envQ.mm
      ≤ ipPipeQ.OD := by norm_num [ipPipeQ, envQ]
  exact ⟨hmm, hg, hw, hOD,
    (C1_IP_tubes_partition envQ ipPipeQ hmm hg hw hOD).2.2.2.2.2.1⟩

/-- C2: the gold tube has radial thickness rmax - rmin = gold_thickness and the
beryllium tube has radial thickness rmax - rmin = wall_thickness, upstream and
downstream, for every OD, wall_thickness and gold_thickness. -/
theorem C2_gold_and_wall_thickness (c : IPPipeXml K) :
    (downstream_IP_gold c).rmax - (downstream_IP_gold c).rmin = c.gold_thickness
      ∧ (upstream_IP_gold c).rmax - (upstream_IP_gold c).rmin = c.gold_thickness
      ∧ (downstream_IP_tube c).rmax - (downstream_IP_tube c).rmin = c.wall_thickness
      ∧ (upstream_IP_tube c).rmax - (upstream_IP_tube c).rmin = c.wall_thickness
      ∧ c.OD / 2 - (IP_beampipe_ID c / 2 + c.gold_thickness) = c.wall_thickness
      ∧ IP_beampipe_ID c = c.OD - 2 * c.gold_thickness - 2 * c.wall_thickness := by
  refine ⟨?_, ?_, ?_, ?_, ?_, rfl⟩ <;>
    simp only [downstream_IP_gold, upstream_IP_gold, downstream_IP_tube, upstream_IP_tube,
      IP_beampipe_ID, IP_beampipe_OD, IP_beampipe_gold_thickness,
      IP_beampipe_wall_thickness] <;> ring

/-- The radial thickness of the vacuum padding tubes is half of 5 mm, and that of
the fake beampipe tubes and of the central tube is half of 1 mm, for every
input: lines 59-60 subtract 5 mm and 1 mm from diameters. -/
theorem IP_padding_and_acts_thickness (E : Env K) (c : IPPipeXml K) :
    (upstream_IP_vacuum_padding E c).rmax - (upstream_IP_vacuum_padding E c).rmin
        = 5 * E.mm / 2
      ∧ (downstream_IP_vacuum_padding E c).rmax - (downstream_IP_vacuum_padding E c).rmin
        = 5 * E.mm / 2
      ∧ (upstream_IP_acts_beampipe E c).rmax - (upstream_IP_acts_beampipe E c).rmin
        = 1 * E.mm / 2
      ∧ (downstream_IP_acts_beampipe E c).rmax - (downstream_IP_acts_beampipe E c).rmin
        = 1 * E.mm / 2
      ∧ (central_tube E c).rmax - (central_tube E c).rmin = 1 * E.mm / 2 := by
  refine ⟨?_, ?_, ?_, ?_, ?_⟩ <;>
    simp only [upstream_IP_vacuum_padding, downstream_IP_vacuum_padding,
      upstream_IP_acts_beampipe, downstream_IP_acts_beampipe, central_tube,
      IP_acts_beampipe_ID, IP_acts_beampipe_OD] <;> ring

/-- C3 (the code at the failing input `ipPipeQ`, with mm = 1/10): the vacuum
padding tubes have rmax - rmin = 1/4, which is 2.5 mm and not 5 mm = 1/2; the
fake beampipe tubes and the central tube have rmax - rmin = 1/20, which is
0.5 mm and not 1 mm = 1/10. -/
theorem C3_thickness_at_failing_input :
    (5 * envQ.mm = 1 / 2 ∧ 1 * envQ.mm = 1 / 10)
      ∧ (upstream_IP_vacuum_padding envQ ipPipeQ).rmax
          - (upstream_IP_vacuum_padding envQ ipPipeQ).rmin = 1 / 4
      ∧ (downstream_IP_vacuum_padding envQ ipPipeQ).rmax
          - (downstream_IP_vacuum_padding envQ ipPipeQ).rmin = 1 / 4
      ∧ (upstream_IP_acts_beampipe envQ ipPipeQ).rmax
          - (upstream_IP_acts_beampipe envQ ipPipeQ).rmin = 1 / 20
      ∧ (downstream_IP_acts_beampipe envQ ipPipeQ).rmax
          - (downstream_IP_acts_beampipe envQ ipPipeQ).rmin = 1 / 20
      ∧ (central_tube envQ ipPipeQ).rmax - (central_tube envQ ipPipeQ).rmin = 1 / 20
      ∧ (upstream_IP_vacuum_padding envQ ipPipeQ).rmax
          - (upstream_IP_vacuum_padding envQ ipPipeQ).rmin ≠ 5 * envQ.mm
      ∧ (upstream_IP_acts_beampipe envQ ipPipeQ).rmax
          - (upstream_IP_acts_beampipe envQ ipPipeQ).rmin ≠ 1 * envQ.mm := by
  refine ⟨⟨?_, ?_⟩, ?_, ?_, ?_, ?_, ?_, ?_, ?_⟩ <;>
    norm_num [upstream_IP_vacuum_padding, downstream_IP_vacuum_padding,
      upstream_IP_acts_beampipe, downstream_IP_acts_beampipe, central_tube,
      IP_acts_beampipe_ID, IP_acts_beampipe_OD, IP_beampipe_ID, IP_beampipe_OD,
      IP_beampipe_gold_thickness, IP_beampipe_wall_thickness, envQ, ipPipeQ]

end IPTheorems

section PolyconeTheorems

variable {K : Type} [LinearOrderedField K]

/-- Running the zplane loop from any state appends one entry per zplane to each
of the three vectors. -/
theorem zplane_foldl_eq (zs : List (ZPlaneXml K)) (acc : List K × List K × List K) :
    zs.foldl zplane_push acc
      = (acc.1 ++ zs.map (fun _ => (0 : K)), acc.2.1 ++ zs.map (fun p => p.OD / 2),
          acc.2.2 ++ zs.map (fun p => p.z)) := by
  induction zs generalizing acc with
  | nil => simp
  | cons a rest ih =>
      rw [List.foldl_cons, ih]
      simp [zplane_push, List.append_assoc]

/-- The zplane loop yields, per zplane in order, rmin 0, rmax OD/2 and z. -/
theorem zplane_loop_eq (zs : List (ZPlaneXml K)) :
    zplane_loop zs
      = (zs.map (fun _ => (0 : K)), zs.map (fun p => p.OD / 2), zs.map (fun p => p.z)) := by
  rw [zplane_loop, zplane_foldl_eq]
  simp

/-- C7: `zplane_to_polycones` returns (matter polycone, vacuum polycone), each
built from its own child's zplane list: one cross-section per zplane in document
order, the i-th with z the zplane's z, rmax half its OD and rmin 0; start angle
0 and extent 2 * M_PI; the vectors rmin, rmax, z have equal length; and the two
polycones can have different numbers of sections. -/
theorem C7_zplane_to_polycones (E : Env K) (x_pipe : PipeXml K) :
    ((zplane_to_polycones E x_pipe).1.z = x_pipe.matter.map (fun p => p.z)
        ∧ (zplane_to_polycones E x_pipe).1.rmax = x_pipe.matter.map (fun p => p.OD / 2)
        ∧ (zplane_to_polycones E x_pipe).1.rmin = x_pipe.matter.map (fun _ => (0 : K))
        ∧ (zplane_to_polycones E x_pipe).1.startPhi = 0
        ∧ (zplane_to_polycones E x_pipe).1.deltaPhi = 2 * E.M_PI)
      ∧ ((zplane_to_polycones E x_pipe).2.z = x_pipe.vacuum.map (fun p => p.z)
        ∧ (zplane_to_polycones E x_pipe).2.rmax = x_pipe.vacuum.map (fun p => p.OD / 2)
        ∧ (zplane_to_polycones E x_pipe).2.rmin = x_pipe.vacuum.map (fun _ => (0 : K))
        ∧ (zplane_to_polycones E x_pipe).2.startPhi = 0
        ∧ (zplane_to_polycones E x_pipe).2.deltaPhi = 2 * E.M_PI)
      ∧ (∀ i : Nat,
          ((zplane_to_polycones E x_pipe).1.z)[i]? = (x_pipe.matter[i]?).map (fun p => p.z)
          ∧ ((zplane_to_polycones E x_pipe).1.rmax)[i]?
              = (x_pipe.matter[i]?).map (fun p => p.OD / 2)
          ∧ ((zplane_to_polycones E x_pipe).1.rmin)[i]?
              = (x_pipe.matter[i]?).map (fun _ => (0 : K))
          ∧ ((zplane_to_polycones E x_pipe).2.z)[i]? = (x_pipe.vacuum[i]?).map (fun p => p.z)
          ∧ ((zplane_to_polycones E x_pipe).2.rmax)[i]?
              = (x_pipe.vacuum[i]?).map (fun p => p.OD / 2)
          ∧ ((zplane_to_polycones E x_pipe).2.rmin)[i]?
              = (x_pipe.vacuum[i]?).map (fun _ => (0 : K)))
      ∧ ((zplane_to_polycones E x_pipe).1.rmin.length = x_pipe.matter.length
        ∧ (zplane_to_polycones E x_pipe).1.rmax.length = x_pipe.matter.length
        ∧ (zplane_to_polycones E x_pipe).1.z.length = x_pipe.matter.length
        ∧ (zplane_to_polycones E x_pipe).2.rmin.length = x_pipe.vacuum.length
        ∧ (zplane_to_polycones E x_pipe).2.rmax.length = x_pipe.vacuum.length
        ∧ (zplane_to_polycones E x_pipe).2.z.length = x_pipe.vacuum.length)
      ∧ ∃ x : PipeXml K,
          (zplane_to_polycones E x).1.z.length ≠ (zplane_to_polycones E x).2.z.length := by
  refine ⟨?_, ?_, ?_, ?_, ?_⟩
  · simp [zplane_to_polycones, zplane_loop_eq]
  · simp [zplane_to_polycones, zplane_loop_eq]
  · intro i
    simp only [zplane_to_polycones, zplane_loop_eq, List.getElem?_map, and_self]
  · simp [zplane_to_polycones, zplane_loop_eq]
  · refine ⟨⟨[⟨1, 0⟩, ⟨1, 1⟩, ⟨1, 2⟩], [⟨2, 0⟩, ⟨2, 2⟩], none, none, none, none, none,
      none, none, none, none⟩, ?_⟩
    simp [zplane_to_polycones, zplane_loop_eq]

end PolyconeTheorems

section MaterialTheorems

variable {K : Type} [LinearOrderedField K]

/-- C8: in `create_detector` the IP wall tubes are Beryllium, the IP coating
tubes are Gold, the vacuum fill, fake ACTS beampipe, vacuum padding and central
volumes are Vacuum, and the upstream and downstream pairs are
(volume "v_<name>_matter" of Aluminum, volume "v_<name>_vacuum" of Vacuum). -/
theorem C8_materials (E : Env K) (x_det : DetXml K) :
    ((create_detector E x_det).v_upstream_IP_tube.material = material "Beryllium"
        ∧ (create_detector E x_det).v_downstream_IP_tube.material = material "Beryllium")
      ∧ ((create_detector E x_det).v_upstream_IP_gold.material = material "Gold"
        ∧ (create_detector E x_det).v_downstream_IP_gold.material = material "Gold")
      ∧ ((create_detector E x_det).v_upstream_IP_vacuum_fill.material = material "Vacuum"
        ∧ (create_detector E x_det).v_downstream_IP_vacuum_fill.material = material "Vacuum"
        ∧ (create_detector E x_det).v_upstream_IP_acts_beampipe.material = material "Vacuum"
        ∧ (create_detector E x_det).v_downstream_IP_acts_beampipe.material
            = material "Vacuum"
        ∧ (create_detector E x_det).v_upstream_IP_vacuum_padding.material
            = material "Vacuum"
        ∧ (create_detector E x_det).v_downstream_IP_vacuum_padding.material
            = material "Vacuum"
        ∧ (create_detector E x_det).central_volume.material = material "Vacuum")
      ∧ ((create_detector E x_det).volumes_upstream.1.name = "v_upstream_matter"
        ∧ (create_detector E x_det).volumes_upstream.1.material = material "Aluminum"
        ∧ (create_detector E x_det).volumes_upstream.2.name = "v_upstream_vacuum"
        ∧ (create_detector E x_det).volumes_upstream.2.material = material "Vacuum")
      ∧ ((create_detector E x_det).volumes_downstream.1.name = "v_downstream_matter"
        ∧ (create_detector E x_det).volumes_downstream.1.material = material "Aluminum"
        ∧ (create_detector E x_det).volumes_downstream.2.name = "v_downstream_vacuum"
        ∧ (create_detector E x_det).volumes_downstream.2.material = material "Vacuum")
      ∧ (∀ (name : String) (x_pipe1 x_pipe2 : PipeXml K) (adds : List (PipeXml K))
            (x_add : PipeXml K) (sv sm : Bool),
          (create_volumes E name x_pipe1 x_pipe2 adds sv sm).1.name = "v_" ++ name ++ "_matter"
          ∧ (create_volumes E name x_pipe1 x_pipe2 adds sv sm).1.material
              = material "Aluminum"
          ∧ (create_volumes E name x_pipe1 x_pipe2 adds sv sm).2.name
              = "v_" ++ name ++ "_vacuum"
          ∧ (create_volumes E name x_pipe1 x_pipe2 adds sv sm).2.material
              = material "Vacuum"
          ∧ (create_volumes_2 E name x_pipe1 x_pipe2 x_add sv sm).1.name
              = "v_" ++ name ++ "_matter"
          ∧ (create_volumes_2 E name x_pipe1 x_pipe2 x_add sv sm).1.material
              = material "Aluminum"
          ∧ (create_volumes_2 E name x_pipe1 x_pipe2 x_add sv sm).2.name
              = "v_" ++ name ++ "_vacuum"
          ∧ (create_volumes_2 E name x_pipe1 x_pipe2 x_add sv sm).2.material
              = material "Vacuum") := by
  refine ⟨⟨rfl, rfl⟩, ⟨rfl, rfl⟩, ⟨rfl, rfl, rfl, rfl, rfl, rfl, rfl⟩, ⟨?_, rfl, ?_, rfl⟩,
    ⟨?_, rfl, ?_, rfl⟩, ?_⟩
  · show "v_" ++ "upstream" ++ "_matter" = "v_upstream_matter"
    decide
  · show "v_" ++ "upstream" ++ "_vacuum" = "v_upstream_vacuum"
    decide
  · show "v_" ++ "downstream" ++ "_matter" = "v_downstream_matter"
    decide
  · show "v_" ++ "downstream" ++ "_vacuum" = "v_downstream_vacuum"
    decide
  · intro name x_pipe1 x_pipe2 adds x_add sv sm
    exact ⟨rfl, rfl, rfl, rfl, rfl, rfl, rfl, rfl⟩

end MaterialTheorems

section PointSetTheorems

variable {K : Type} [LinearOrderedField K]

/-- Membership in the point set of a solid is its `Contains` test. -/
theorem Solid.mem_points (s : Solid K) (p : Position K) :
    p ∈ s.points ↔ s.Contains p = true := Iff.rfl

/-- Membership in the point set of a placed solid. -/
theorem Solid.mem_placedPoints (s : Solid K) (tf : Transform3D K) (p : Position K) :
    p ∈ s.placedPoints tf ↔ s.Contains (tf.MasterToLocal p) = true := Iff.rfl

/-- The point set of `UnionSolid` is the union of the first operand with the
placed second operand. -/
theorem Solid.points_UnionSolid (a b : Solid K) (tf : Transform3D K) :
    (Solid.UnionSolid a b tf).points = a.points ∪ b.placedPoints tf := by
  ext p
  simp [Solid.points, Solid.placedPoints, Solid.Contains]

/-- The point set of `SubtractionSolid` is the first operand minus the placed
second operand. -/
theorem Solid.points_SubtractionSolid (a b : Solid K) (tf : Transform3D K) :
    (Solid.SubtractionSolid a b tf).points = a.points \ b.placedPoints tf := by
  ext p
  simp [Solid.points, Solid.placedPoints, Solid.Contains]

/-- The identity placement leaves coordinates unchanged. -/
theorem Transform3D.MasterToLocal_Identity (p : Position K) :
    (Transform3D.Identity : Transform3D K).MasterToLocal p = p := by
  cases p
  simp [Transform3D.MasterToLocal, Transform3D.Identity]

/-- A solid placed by the identity has its own point set. -/
theorem Solid.placedPoints_Identity (s : Solid K) :
    s.placedPoints Transform3D.Identity = s.points := by
  ext p
  simp [Solid.points, Solid.placedPoints, Transform3D.MasterToLocal_Identity]

/-- The additional-subtraction loop of `create_volumes` only removes points. -/
theorem create_volumes.foldl_subset (E : Env K) (adds : List (PipeXml K)) (m : Solid K) :
    (adds.foldl (create_volumes.subtract_additional E) m).points ⊆ m.points := by
  induction adds generalizing m with
  | nil => exact subset_rfl
  | cons a rest ih =>
      rw [List.foldl_cons]
      refine (ih _).trans ?_
      rw [create_volumes.subtract_additional, Solid.points_SubtractionSolid]
      exact Set.diff_subset

/-- C4: in `create_volumes`, if subtract_vacuum_from_matter or
subtract_matter_from_vacuum is true, the matter solid and the vacuum solid of the
returned pair have no point in common, for every pair of pipes, every transform
and every list of additional subtractions. -/
theorem C4_create_volumes_disjoint (E : Env K) (name : String) (x_pipe1 x_pipe2 : PipeXml K)
    (adds : List (PipeXml K)) (sv sm : Bool) (h : sv = true ∨ sm = true) :
    (create_volumes E name x_pipe1 x_pipe2 adds sv sm).1.solid.points
      ∩ (create_volumes E name x_pipe1 x_pipe2 adds sv sm).2.solid.points = ∅ := by
  rw [Set.eq_empty_iff_forall_not_mem]
  rintro p ⟨hm, hv⟩
  have hm0 := create_volumes.foldl_subset E adds _ hm
  simp only [create_volumes, create_volumes.vacuum] at hv
  cases sv <;> cases sm <;>
    simp only [Bool.false_eq_true, if_false, if_true, Solid.points_SubtractionSolid,
      Solid.placedPoints_Identity, Set.mem_diff, or_self] at hm0 hv h
  · exact hv.2 hm0
  · exact hm0.2 hv
  · exact hv.2 hm0.1

/-- Evaluation of C4 on the pipes `leptonQ`, `hadronQ` with one additional
subtraction, subtracting the vacuum from the matter only. -/
theorem C4_create_volumes_disjoint_witness :
    ((true = true ∨ false = true)
      ∧ (create_volumes envQ "upstream" leptonQ hadronQ [additionalQ] true false).1.solid.points
        ∩ (create_volumes envQ "upstream" leptonQ hadronQ [additionalQ] true false).2.solid.points
          = ∅) :=
  ⟨Or.inl rfl,
    C4_create_volumes_disjoint envQ "upstream" leptonQ hadronQ [additionalQ] true false
      (Or.inl rfl)⟩

/-- C6: in `create_volumes_2`, for every input and both values of each flag,
with A the vacuum polycone of additional_subtraction placed by
tf * RotationY(additional_crossing_angle): the final matter is the matter before
this step minus A, the final vacuum is the vacuum before this step united with
A, the final matter contains no point of A and the final vacuum contains all of
A. -/
theorem C6_additional_vacuum (E : Env K) (name : String) (x_pipe1 x_pipe2 : PipeXml K)
    (x_add : PipeXml K) (sv sm : Bool) :
    (create_volumes_2 E name x_pipe1 x_pipe2 x_add sv sm).1.solid.points
        = (create_volumes_2.matter_before E x_pipe1 x_pipe2 sv).points
          \ (Solid.polycone (zplane_to_polycones E x_add).2).placedPoints
              (create_volumes_2.tf E x_pipe2
                * Transform3D.ofRotationY
                    (RotationY.ofAngle E (getAttrOrDefault x_add.crossing_angle 0)))
      ∧ (create_volumes_2 E name x_pipe1 x_pipe2 x_add sv sm).2.solid.points
        = (create_volumes_2.vacuum_before E x_pipe1 x_pipe2 sv sm).points
          ∪ (Solid.polycone (zplane_to_polycones E x_add).2).placedPoints
              (create_volumes_2.tf E x_pipe2
                * Transform3D.ofRotationY
                    (RotationY.ofAngle E (getAttrOrDefault x_add.crossing_angle 0)))
      ∧ (create_volumes_2 E name x_pipe1 x_pipe2 x_add sv sm).1.solid.points
          ∩ (Solid.polycone (zplane_to_polycones E x_add).2).placedPoints
              (create_volumes_2.tf E x_pipe2
                * Transform3D.ofRotationY
                    (RotationY.ofAngle E (getAttrOrDefault x_add.crossing_angle 0))) = ∅
      ∧ (Solid.polycone (zplane_to_polycones E x_add).2).placedPoints
              (create_volumes_2.tf E x_pipe2
                * Transform3D.ofRotationY
                    (RotationY.ofAngle E (getAttrOrDefault x_add.crossing_angle 0)))
          ⊆ (create_volumes_2 E name x_pipe1 x_pipe2 x_add sv sm).2.solid.points := by
  refine ⟨?_, ?_, ?_, ?_⟩
  · exact Solid.points_SubtractionSolid _ _ _
  · exact Solid.points_UnionSolid _ _ _
  · simp only [create_volumes_2, create_volumes_2.additional_tf,
      Solid.points_SubtractionSolid]
    exact Set.diff_inter_self
  · simp only [create_volumes_2, create_volumes_2.additional_tf, Solid.points_UnionSolid]
    exact Set.subset_union_right

end PointSetTheorems

section DownstreamTheorems

variable {K : Type} [LinearOrderedField K]

/-- The product of transforms is `Transform3D.mul`. -/
theorem Transform3D.mul_def (a b : Transform3D K) : a * b = Transform3D.mul a b := rfl

/-- C5 (counterexample): with subtract_vacuum_from_matter = true and
subtract_matter_from_vacuum = false, the point (3/2, 0, 5) of the lepton pipe
wall belongs both to the returned matter solid and to the returned vacuum
solid. -/
theorem C5_counterexample :
    pointQ ∈ (create_volumes_2 envQ "downstream" leptonQ hadronQ additionalQ
        true false).1.solid.points
      ∧ pointQ ∈ (create_volumes_2 envQ "downstream" leptonQ hadronQ additionalQ
        true false).2.solid.points := by
  constructor <;>
    norm_num [Solid.points, Solid.Contains, create_volumes_2, create_volumes_2.matter_before,
      create_volumes_2.vacuum_before, create_volumes_2.vacuum_union,
      create_volumes_2.pipe2_polycones_mat_cut, create_volumes_2.mat_cut_extended,
      create_volumes_2.pipe2_polycones_vac_cut, create_volumes_2.cut,
      create_volumes_2.tb_mat, create_volumes_2.tb_vac, create_volumes_2.extension_tf,
      create_volumes_2.additional_tf, create_volumes_2.tf, create_volumes_2.box_cut,
      create_volumes_2.box_cut_sizex, create_volumes_2.box_cut_sizey,
      create_volumes_2.box_cut_sizez, create_volumes_2.box_centre_1,
      create_volumes_2.box_centre_2, create_volumes_2.box_centre_3,
      create_volumes_2.p_mat_1, create_volumes_2.p_mat_2, create_volumes_2.p_mat_3,
      create_volumes_2.p_vac_1, create_volumes_2.p_vac_2, create_volumes_2.p_vac_3,
      zplane_to_polycones, zplane_loop, zplane_push, Polycone.Contains,
      Polycone.sectionsContain, Tube.Contains, Box.Contains, Transform3D.MasterToLocal,
      Transform3D.mul_def, Transform3D.mul, Transform3D.ofPosition, Transform3D.ofRotationY,
      Transform3D.Identity, RotationY.ofAngle, getAttrOrDefault, envQ, hadronQ, leptonQ,
      additionalQ, pointQ, lt_abs, abs_le]

/-- C5 (amended): with subtract_vacuum_from_matter = true and either value of
subtract_matter_from_vacuum, the returned matter solid has no point in common
with the placed lepton vacuum nor with the placed additional vacuum, and every
point it shares with the cut and extended hadron vacuum lies in the placed lepton
matter polycone (united after the hadron vacuum is subtracted); when
subtract_matter_from_vacuum is true as well, the returned matter and vacuum
solids have no point in common. -/
theorem C5_matter_vacuum_amended (E : Env K) (name : String) (x_pipe1 x_pipe2 : PipeXml K)
    (x_add : PipeXml K) (sm : Bool) :
    (create_volumes_2 E name x_pipe1 x_pipe2 x_add true sm).1.solid.points
        ∩ (Solid.polycone (zplane_to_polycones E x_pipe1).2).placedPoints
            (create_volumes_2.tf E x_pipe2) = ∅
      ∧ (create_volumes_2 E name x_pipe1 x_pipe2 x_add true sm).1.solid.points
        ∩ (Solid.polycone (zplane_to_polycones E x_add).2).placedPoints
            (create_volumes_2.tf E x_pipe2 * create_volumes_2.additional_tf E x_add) = ∅
      ∧ (create_volumes_2 E name x_pipe1 x_pipe2 x_add true sm).1.solid.points
          ∩ (create_volumes_2.pipe2_polycones_vac_cut E x_pipe2).points
        ⊆ (Solid.polycone (zplane_to_polycones E x_pipe1).1).placedPoints
            (create_volumes_2.tf E x_pipe2)
      ∧ (create_volumes_2 E name x_pipe1 x_pipe2 x_add true true).1.solid.points
        ∩ (create_volumes_2 E name x_pipe1 x_pipe2 x_add true true).2.solid.points = ∅ := by
  refine ⟨?_, ?_, ?_, ?_⟩
  · rw [Set.eq_empty_iff_forall_not_mem]
    rintro p ⟨hm, hv⟩
    simp only [create_volumes_2, create_volumes_2.matter_before, if_true,
      Solid.points_SubtractionSolid, Set.mem_diff] at hm
    exact hm.1.2 hv
  · rw [Set.eq_empty_iff_forall_not_mem]
    rintro p ⟨hm, hv⟩
    simp only [create_volumes_2, Solid.points_SubtractionSolid, Set.mem_diff] at hm
    exact hm.2 hv
  · rintro p ⟨hm, hv⟩
    simp only [create_volumes_2, create_volumes_2.matter_before,
      create_volumes_2.pipe2_polycones_mat_cut, if_true, Solid.points_SubtractionSolid,
      Solid.points_UnionSolid, Solid.placedPoints_Identity, Set.mem_diff,
      Set.mem_union] at hm
    rcases hm.1.1 with h | h
    · exact absurd hv h.2
    · exact h
  · rw [Set.eq_empty_iff_forall_not_mem]
    rintro p ⟨hm, hv⟩
    simp only [create_volumes_2, create_volumes_2.vacuum_before, if_true,
      Solid.points_SubtractionSolid, Solid.points_UnionSolid, Solid.placedPoints_Identity,
      Set.mem_diff, Set.mem_union] at hm hv
    rcases hv with h | h
    · exact h.2 hm.1
    · exact hm.2 h

/-- A box centred at `c` (coordinates of the frame in which it is placed)
contains exactly the points within its half-lengths of `c` on each axis. -/
theorem Box.contains_ofPosition_iff (b : Box K) (c q : Position K) :
    b.Contains ((Transform3D.ofPosition c).MasterToLocal q) = true
      ↔ |q.x - c.x| ≤ b.dx ∧ |q.y - c.y| ≤ b.dy ∧ |q.z - c.z| ≤ b.dz := by
  simp [Box.Contains, Transform3D.MasterToLocal, Transform3D.ofPosition, and_assoc]

/-- In `create_volumes_2` the cutting box has half-length 10000 mm on each axis;
the face of each box nearest the retained region is, for matter versus vacuum,
x = h versus x = h - t, z = cone_z_end + t versus z = cone_z_end, and
z = cone_z_start - t versus z = cone_z_start; each box lies beyond its face; and
for t >= 0 the half-space region bounded by the vacuum faces is contained in the
one bounded by the matter faces, the faces being exactly t apart. -/
theorem create_volumes_2.cut_faces (E : Env K) (x_pipe2 : PipeXml K)
    (ht : 0 ≤ getAttrOrDefault x_pipe2.thickness 0) :
    ((create_volumes_2.box_cut E).dx = 10000 * E.mm
        ∧ (create_volumes_2.box_cut E).dy = 10000 * E.mm
        ∧ (create_volumes_2.box_cut E).dz = 10000 * E.mm)
      ∧ (create_volumes_2.face_x E (create_volumes_2.p_mat_1 x_pipe2)
            = getAttrOrDefault x_pipe2.horizontal_offset 0
        ∧ create_volumes_2.face_x E (create_volumes_2.p_vac_1 x_pipe2)
            = getAttrOrDefault x_pipe2.horizontal_offset 0
              - getAttrOrDefault x_pipe2.thickness 0
        ∧ create_volumes_2.face_z_end E (create_volumes_2.p_mat_2 x_pipe2)
            = getAttrOrDefault x_pipe2.cone_z_end 0 + getAttrOrDefault x_pipe2.thickness 0
        ∧ create_volumes_2.face_z_end E (create_volumes_2.p_vac_2 x_pipe2)
            = getAttrOrDefault x_pipe2.cone_z_end 0
        ∧ create_volumes_2.face_z_start E (create_volumes_2.p_mat_3 x_pipe2)
            = getAttrOrDefault x_pipe2.cone_z_start 0 - getAttrOrDefault x_pipe2.thickness 0
        ∧ create_volumes_2.face_z_start E (create_volumes_2.p_vac_3 x_pipe2)
            = getAttrOrDefault x_pipe2.cone_z_start 0)
      ∧ (∀ p q : Position K,
          ((create_volumes_2.box_cut E).Contains
              ((Transform3D.ofPosition (create_volumes_2.box_centre_1 E p)).MasterToLocal q)
                = true
            → create_volumes_2.face_x E p ≤ q.x)
          ∧ ((create_volumes_2.box_cut E).Contains
              ((Transform3D.ofPosition (create_volumes_2.box_centre_2 E p)).MasterToLocal q)
                = true
            → create_volumes_2.face_z_end E p ≤ q.z)
          ∧ ((create_volumes_2.box_cut E).Contains
              ((Transform3D.ofPosition (create_volumes_2.box_centre_3 E p)).MasterToLocal q)
                = true
            → q.z ≤ create_volumes_2.face_z_start E p))
      ∧ (∀ q : Position K,
          (q.x ≤ create_volumes_2.face_x E (create_volumes_2.p_vac_1 x_pipe2)
            ∧ create_volumes_2.face_z_start E (create_volumes_2.p_vac_3 x_pipe2) ≤ q.z
            ∧ q.z ≤ create_volumes_2.face_z_end E (create_volumes_2.p_vac_2 x_pipe2))
          → (q.x ≤ create_volumes_2.face_x E (create_volumes_2.p_mat_1 x_pipe2)
            ∧ create_volumes_2.face_z_start E (create_volumes_2.p_mat_3 x_pipe2) ≤ q.z
            ∧ q.z ≤ create_volumes_2.face_z_end E (create_volumes_2.p_mat_2 x_pipe2)))
      ∧ (create_volumes_2.face_x E (create_volumes_2.p_mat_1 x_pipe2)
            - create_volumes_2.face_x E (create_volumes_2.p_vac_1 x_pipe2)
          = getAttrOrDefault x_pipe2.thickness 0
        ∧ create_volumes_2.face_z_end E (create_volumes_2.p_mat_2 x_pipe2)
            - create_volumes_2.face_z_end E (create_volumes_2.p_vac_2 x_pipe2)
          = getAttrOrDefault x_pipe2.thickness 0
        ∧ create_volumes_2.face_z_start E (create_volumes_2.p_vac_3 x_pipe2)
            - create_volumes_2.face_z_start E (create_volumes_2.p_mat_3 x_pipe2)
          = getAttrOrDefault x_pipe2.thickness 0) := by
  have fx : ∀ p : Position K, create_volumes_2.face_x E p = p.x := fun p => by
    simp [create_volumes_2.face_x, create_volumes_2.box_centre_1, create_volumes_2.box_cut]
  have fe : ∀ p : Position K, create_volumes_2.face_z_end E p = p.z := fun p => by
    simp [create_volumes_2.face_z_end, create_volumes_2.box_centre_2, create_volumes_2.box_cut]
  have fs : ∀ p : Position K, create_volumes_2.face_z_start E p = p.z := fun p => by
    simp [create_volumes_2.face_z_start, create_volumes_2.box_centre_3,
      create_volumes_2.box_cut]
  refine ⟨⟨rfl, rfl, rfl⟩, ?_, ?_, ?_, ?_⟩
  · simp only [fx, fe, fs, create_volumes_2.p_mat_1, create_volumes_2.p_vac_1,
      create_volumes_2.p_mat_2, create_volumes_2.p_vac_2, create_volumes_2.p_mat_3,
      create_volumes_2.p_vac_3, and_self]
  · intro p q
    simp only [Box.contains_ofPosition_iff, abs_le, fx, fe, fs, create_volumes_2.box_centre_1,
      create_volumes_2.box_centre_2, create_volumes_2.box_centre_3, create_volumes_2.box_cut]
    refine ⟨fun h => ?_, fun h => ?_, fun h => ?_⟩
    · linarith [h.1.1]
    · linarith [h.2.2.1]
    · linarith [h.2.2.2]
  · intro q
    simp only [fx, fe, fs, create_volumes_2.p_mat_1, create_volumes_2.p_vac_1,
      create_volumes_2.p_mat_2, create_volumes_2.p_vac_2, create_volumes_2.p_mat_3,
      create_volumes_2.p_vac_3]
    rintro ⟨h1, h2, h3⟩
    exact ⟨by linarith, by linarith, by linarith⟩
  · simp only [fx, fe, fs, create_volumes_2.p_mat_1, create_volumes_2.p_vac_1,
      create_volumes_2.p_mat_2, create_volumes_2.p_vac_2, create_volumes_2.p_mat_3,
      create_volumes_2.p_vac_3]
    refine ⟨?_, ?_, ?_⟩ <;> ring

end DownstreamTheorems

section TransformTheorems

variable {K : Type} [LinearOrderedField K]

/-- The shift -> rotate -> shift transform about the axis through (0, 0, a) sends
(x, y, z) to (cos * x + sin * (z - a), y, a + cos * (z - a) - sin * x). -/
theorem shift_rotate_shift_apply (E : Env K) (a theta : K) (p : Position K) :
    (Transform3D.ofPosition ⟨0, 0, a⟩ * Transform3D.ofRotationY (RotationY.ofAngle E theta)
        * Transform3D.ofPosition ⟨0, 0, -a⟩).apply p
      = ⟨E.cos theta * p.x + E.sin theta * (p.z - a), p.y,
          a + E.cos theta * (p.z - a) - E.sin theta * p.x⟩ := by
  ext <;>
    simp [Transform3D.apply, Transform3D.mul_def, Transform3D.mul, Transform3D.ofPosition,
      Transform3D.ofRotationY, RotationY.ofAngle] <;> ring

/-- The shift -> rotate -> shift transform keeps squared distances to (0, 0, a)
whenever the rotation's cosine and sine satisfy cos^2 + sin^2 = 1. -/
theorem shift_rotate_shift_dist2 (E : Env K) (a theta : K) (p : Position K)
    (h : E.cos theta ^ 2 + E.sin theta ^ 2 = 1) :
    ((Transform3D.ofPosition ⟨0, 0, a⟩ * Transform3D.ofRotationY (RotationY.ofAngle E theta)
        * Transform3D.ofPosition ⟨0, 0, -a⟩).apply p).dist2 ⟨0, 0, a⟩
      = p.dist2 ⟨0, 0, a⟩ := by
  rw [shift_rotate_shift_apply]
  simp only [Position.dist2]
  linear_combination (p.x * p.x + (p.z - a) * (p.z - a)) * h

/-- C9: over the reals, with `cos` and `sin` the real cosine and sine, the
transform tf of `create_volumes` (angle theta = crossing_angle) and of
`create_volumes_2` (angle theta = |crossing_angle|), with a = axis_intersection,
is the rotation by theta about the line parallel to the Y axis through
(0, 0, a): it sends (x, y, z) to
(cos theta * x + sin theta * (z - a), y, a + cos theta * (z - a) - sin theta * x).
Hence it maps (0, 0, a) to itself, leaves the y coordinate of every point
unchanged and preserves the distance of every point to (0, 0, a); and when
crossing_angle = 0 it is the identity. -/
theorem C9_tf_rotation_about_axis (E : Env ℝ) (x_pipe2 : PipeXml ℝ) (p : Position ℝ)
    (hcos : E.cos = Real.cos) (hsin : E.sin = Real.sin) :
    ((create_volumes.tf E x_pipe2).apply p
          = ⟨Real.cos (getAttrOrDefault x_pipe2.crossing_angle 0) * p.x
              + Real.sin (getAttrOrDefault x_pipe2.crossing_angle 0)
                * (p.z - getAttrOrDefault x_pipe2.axis_intersection 0),
             p.y,
             getAttrOrDefault x_pipe2.axis_intersection 0
              + Real.cos (getAttrOrDefault x_pipe2.crossing_angle 0)
                * (p.z - getAttrOrDefault x_pipe2.axis_intersection 0)
              - Real.sin (getAttrOrDefault x_pipe2.crossing_angle 0) * p.x⟩
        ∧ (create_volumes_2.tf E x_pipe2).apply p
          = ⟨Real.cos |getAttrOrDefault x_pipe2.crossing_angle 0| * p.x
              + Real.sin |getAttrOrDefault x_pipe2.crossing_angle 0|
                * (p.z - getAttrOrDefault x_pipe2.axis_intersection 0),
             p.y,
             getAttrOrDefault x_pipe2.axis_intersection 0
              + Real.cos |getAttrOrDefault x_pipe2.crossing_angle 0|
                * (p.z - getAttrOrDefault x_pipe2.axis_intersection 0)
              - Real.sin |getAttrOrDefault x_pipe2.crossing_angle 0| * p.x⟩)
      ∧ ((create_volumes.tf E x_pipe2).apply
            ⟨0, 0, getAttrOrDefault x_pipe2.axis_intersection 0⟩
          = ⟨0, 0, getAttrOrDefault x_pipe2.axis_intersection 0⟩
        ∧ ((create_volumes.tf E x_pipe2).apply p).y = p.y
        ∧ Real.sqrt (((create_volumes.tf E x_pipe2).apply p).dist2
              ⟨0, 0, getAttrOrDefault x_pipe2.axis_intersection 0⟩)
            = Real.sqrt (p.dist2 ⟨0, 0, getAttrOrDefault x_pipe2.axis_intersection 0⟩))
      ∧ ((create_volumes_2.tf E x_pipe2).apply
            ⟨0, 0, getAttrOrDefault x_pipe2.axis_intersection 0⟩
          = ⟨0, 0, getAttrOrDefault x_pipe2.axis_intersection 0⟩
        ∧ ((create_volumes_2.tf E x_pipe2).apply p).y = p.y
        ∧ Real.sqrt (((create_volumes_2.tf E x_pipe2).apply p).dist2
              ⟨0, 0, getAttrOrDefault x_pipe2.axis_intersection 0⟩)
            = Real.sqrt (p.dist2 ⟨0, 0, getAttrOrDefault x_pipe2.axis_intersection 0⟩))
      ∧ (getAttrOrDefault x_pipe2.crossing_angle 0 = 0
          → (create_volumes.tf E x_pipe2).apply p = p
            ∧ (create_volumes_2.tf E x_pipe2).apply p = p) := by
  have hpyth : ∀ t : ℝ, E.cos t ^ 2 + E.sin t ^ 2 = 1 := fun t => by
    rw [hcos, hsin]
    exact Real.cos_sq_add_sin_sq t
  refine ⟨⟨?_, ?_⟩, ⟨?_, ?_, ?_⟩, ⟨?_, ?_, ?_⟩, ?_⟩
  · rw [create_volumes.tf, shift_rotate_shift_apply, hcos, hsin]
  · rw [create_volumes_2.tf, shift_rotate_shift_apply, hcos, hsin]
  · rw [create_volumes.tf, shift_rotate_shift_apply]
    ext <;> simp
  · rw [create_volumes.tf, shift_rotate_shift_apply]
  · rw [create_volumes.tf, shift_rotate_shift_dist2 E _ _ p (hpyth _)]
  · rw [create_volumes_2.tf, shift_rotate_shift_apply]
    ext <;> simp
  · rw [create_volumes_2.tf, shift_rotate_shift_apply]
  · rw [create_volumes_2.tf, shift_rotate_shift_dist2 E _ _ p (hpyth _)]
  · intro h0
    rw [create_volumes.tf, create_volumes_2.tf, shift_rotate_shift_apply,
      shift_rotate_shift_apply, h0, abs_zero, hcos, hsin]
    constructor <;> ext <;> simp

/-- Evaluation of C9 on the pipe with axis_intersection 1 and crossing_angle
-(pi/2), at the point (1, 2, 3), with the real cosine and sine: the transform of
`create_volumes` turns the point by -(pi/2) about the axis through (0, 0, 1), to
(-2, 2, 2); that of `create_volumes_2` turns it by +(pi/2), to (2, 2, 0). -/
theorem C9_tf_rotation_about_axis_witness :
    ((⟨1, 3, Real.cos, Real.sin⟩ : Env ℝ).cos = Real.cos
        ∧ (⟨1, 3, Real.cos, Real.sin⟩ : Env ℝ).sin = Real.sin)
      ∧ (create_volumes.tf (⟨1, 3, Real.cos, Real.sin⟩ : Env ℝ)
          ⟨[], [], some (-(Real.pi / 2)), some 1, none, none, none, none, none, none,
            none⟩).apply ⟨1, 2, 3⟩
        = (⟨-2, 2, 2⟩ : Position ℝ)
      ∧ (create_volumes_2.tf (⟨1, 3, Real.cos, Real.sin⟩ : Env ℝ)
          ⟨[], [], some (-(Real.pi / 2)), some 1, none, none, none, none, none, none,
            none⟩).apply ⟨1, 2, 3⟩
        = (⟨2, 2, 0⟩ : Position ℝ) := by
  have h := (C9_tf_rotation_about_axis ⟨1, 3, Real.cos, Real.sin⟩
    ⟨[], [], some (-(Real.pi / 2)), some 1, none, none, none, none, none, none, none⟩
    ⟨1, 2, 3⟩ rfl rfl).1
  have habs : |(-(Real.pi / 2))| = Real.pi / 2 := by
    rw [abs_neg, abs_of_pos (by positivity)]
  refine ⟨⟨rfl, rfl⟩, ?_, ?_⟩
  · rw [h.1]
    ext <;> simp [getAttrOrDefault] <;> norm_num
  · rw [h.2]
    ext <;> simp [getAttrOrDefault, habs]
    norm_num

/-- The cutting boxes of `create_volumes_2` are placed by tf followed by a
translation: their local coordinates are those of the translated box in the
frame of tf, whenever the rotation of tf has cos^2 + sin^2 = 1. -/
theorem create_volumes_2.box_in_frame_of_tf (E : Env K) (x_pipe2 : PipeXml K)
    (c p : Position K)
    (h : E.cos |getAttrOrDefault x_pipe2.crossing_angle 0| ^ 2
        + E.sin |getAttrOrDefault x_pipe2.crossing_angle 0| ^ 2 = 1) :
    (create_volumes_2.tf E x_pipe2 * Transform3D.ofPosition c).MasterToLocal p
      = (Transform3D.ofPosition c).MasterToLocal
          ((create_volumes_2.tf E x_pipe2).MasterToLocal p) := by
  ext
  · simp only [create_volumes_2.tf, Transform3D.MasterToLocal, Transform3D.mul_def,
      Transform3D.mul, Transform3D.ofPosition, Transform3D.ofRotationY, RotationY.ofAngle]
    linear_combination (-c.x) * h
  · simp only [create_volumes_2.tf, Transform3D.MasterToLocal, Transform3D.mul_def,
      Transform3D.mul, Transform3D.ofPosition, Transform3D.ofRotationY, RotationY.ofAngle]
    ring
  · simp only [create_volumes_2.tf, Transform3D.MasterToLocal, Transform3D.mul_def,
      Transform3D.mul, Transform3D.ofPosition, Transform3D.ofRotationY, RotationY.ofAngle]
    linear_combination (-c.z) * h

/-- The three box subtractions of `create_volumes_2` leave uncut every point of
the polycone whose coordinates in the frame of tf lie strictly on the retained
side of the three faces x = p1.x, z = p2.z and z = p3.z. -/
theorem create_volumes_2.cut_retains (E : Env K) (x_pipe2 : PipeXml K) (c : Polycone K)
    (p1 p2 p3 p : Position K)
    (h : E.cos |getAttrOrDefault x_pipe2.crossing_angle 0| ^ 2
        + E.sin |getAttrOrDefault x_pipe2.crossing_angle 0| ^ 2 = 1)
    (hc : c.Contains p = true)
    (hx : ((create_volumes_2.tf E x_pipe2).MasterToLocal p).x < p1.x)
    (hz2 : ((create_volumes_2.tf E x_pipe2).MasterToLocal p).z < p2.z)
    (hz3 : p3.z < ((create_volumes_2.tf E x_pipe2).MasterToLocal p).z) :
    (create_volumes_2.cut E x_pipe2 c p1 p2 p3).Contains p = true := by
  have b1 : (create_volumes_2.box_cut E).Contains
      ((create_volumes_2.tf E x_pipe2
        * Transform3D.ofPosition (create_volumes_2.box_centre_1 E p1)).MasterToLocal p)
        = false := by
    rw [create_volumes_2.box_in_frame_of_tf E x_pipe2 _ p h, Bool.eq_false_iff, ne_eq,
      Box.contains_ofPosition_iff, abs_le]
    simp only [create_volumes_2.box_centre_1, create_volumes_2.box_cut]
    intro hb
    linarith [hb.1.1]
  have b2 : (create_volumes_2.box_cut E).Contains
      ((create_volumes_2.tf E x_pipe2
        * Transform3D.ofPosition (create_volumes_2.box_centre_2 E p2)).MasterToLocal p)
        = false := by
    rw [create_volumes_2.box_in_frame_of_tf E x_pipe2 _ p h, Bool.eq_false_iff, ne_eq,
      Box.contains_ofPosition_iff, abs_le, abs_le, abs_le]
    simp only [create_volumes_2.box_centre_2, create_volumes_2.box_cut]
    intro hb
    linarith [hb.2.2.1]
  have b3 : (create_volumes_2.box_cut E).Contains
      ((create_volumes_2.tf E x_pipe2
        * Transform3D.ofPosition (create_volumes_2.box_centre_3 E p3)).MasterToLocal p)
        = false := by
    rw [create_volumes_2.box_in_frame_of_tf E x_pipe2 _ p h, Bool.eq_false_iff, ne_eq,
      Box.contains_ofPosition_iff, abs_le, abs_le, abs_le]
    simp only [create_volumes_2.box_centre_3, create_volumes_2.box_cut]
    intro hb
    linarith [hb.2.2.2]
  simp [create_volumes_2.cut, Solid.Contains, hc, b1, b2, b3]

end TransformTheorems

section CutTheorems

variable {K : Type} [LinearOrderedField K]

/-- Within the reach of the cutting boxes, the three box subtractions of
`create_volumes_2` keep exactly the points of the polycone that lie strictly on
the retained side of the three faces x = a, z = b and z = d (coordinates in the
frame of tf): the reach is |x|, |y|, |z| <= 10000 mm, with the faces themselves
inside it (a >= -10000 mm, b >= -10000 mm, d <= 10000 mm). -/
theorem create_volumes_2.cut_contains_iff (E : Env K) (x_pipe2 : PipeXml K) (c : Polycone K)
    (a b d : K) (p : Position K)
    (hrot : E.cos |getAttrOrDefault x_pipe2.crossing_angle 0| ^ 2
        + E.sin |getAttrOrDefault x_pipe2.crossing_angle 0| ^ 2 = 1)
    (ha : -(10000 * E.mm) ≤ a) (hb : -(10000 * E.mm) ≤ b) (hd : d ≤ 10000 * E.mm)
    (hx : |((create_volumes_2.tf E x_pipe2).MasterToLocal p).x| ≤ 10000 * E.mm)
    (hy : |((create_volumes_2.tf E x_pipe2).MasterToLocal p).y| ≤ 10000 * E.mm)
    (hz : |((create_volumes_2.tf E x_pipe2).MasterToLocal p).z| ≤ 10000 * E.mm) :
    (create_volumes_2.cut E x_pipe2 c ⟨a, 0, 0⟩ ⟨0, 0, b⟩ ⟨0, 0, d⟩).Contains p = true
      ↔ c.Contains p = true
        ∧ ((create_volumes_2.tf E x_pipe2).MasterToLocal p).x < a
        ∧ d < ((create_volumes_2.tf E x_pipe2).MasterToLocal p).z
        ∧ ((create_volumes_2.tf E x_pipe2).MasterToLocal p).z < b := by
  rw [abs_le] at hx hy hz
  have b1 : (create_volumes_2.box_cut E).Contains
      ((create_volumes_2.tf E x_pipe2
        * Transform3D.ofPosition (create_volumes_2.box_centre_1 E ⟨a, 0, 0⟩)).MasterToLocal p)
        = true ↔ a ≤ ((create_volumes_2.tf E x_pipe2).MasterToLocal p).x := by
    rw [create_volumes_2.box_in_frame_of_tf E x_pipe2 _ p hrot, Box.contains_ofPosition_iff,
      abs_le, abs_le, abs_le]
    simp only [create_volumes_2.box_centre_1, create_volumes_2.box_cut,
      create_volumes_2.box_cut_sizex, create_volumes_2.box_cut_sizey,
      create_volumes_2.box_cut_sizez, sub_zero]
    constructor
    · intro h
      linarith [h.1.1]
    · intro h
      exact ⟨⟨by linarith, by linarith [hx.2]⟩, hy, hz⟩
  have b2 : (create_volumes_2.box_cut E).Contains
      ((create_volumes_2.tf E x_pipe2
        * Transform3D.ofPosition (create_volumes_2.box_centre_2 E ⟨0, 0, b⟩)).MasterToLocal p)
        = true ↔ b ≤ ((create_volumes_2.tf E x_pipe2).MasterToLocal p).z := by
    rw [create_volumes_2.box_in_frame_of_tf E x_pipe2 _ p hrot, Box.contains_ofPosition_iff,
      abs_le, abs_le, abs_le]
    simp only [create_volumes_2.box_centre_2, create_volumes_2.box_cut,
      create_volumes_2.box_cut_sizex, create_volumes_2.box_cut_sizey,
      create_volumes_2.box_cut_sizez, sub_zero]
    constructor
    · intro h
      linarith [h.2.2.1]
    · intro h
      exact ⟨hx, hy, ⟨by linarith, by linarith [hz.2]⟩⟩
  have b3 : (create_volumes_2.box_cut E).Contains
      ((create_volumes_2.tf E x_pipe2
        * Transform3D.ofPosition (create_volumes_2.box_centre_3 E ⟨0, 0, d⟩)).MasterToLocal p)
        = true ↔ ((create_volumes_2.tf E x_pipe2).MasterToLocal p).z ≤ d := by
    rw [create_volumes_2.box_in_frame_of_tf E x_pipe2 _ p hrot, Box.contains_ofPosition_iff,
      abs_le, abs_le, abs_le]
    simp only [create_volumes_2.box_centre_3, create_volumes_2.box_cut,
      create_volumes_2.box_cut_sizex, create_volumes_2.box_cut_sizey,
      create_volumes_2.box_cut_sizez, sub_zero]
    constructor
    · intro h
      linarith [h.2.2.2]
    · intro h
      exact ⟨hx, hy, ⟨by linarith [hz.1], by linarith⟩⟩
  simp only [create_volumes_2.cut, Solid.Contains, Bool.and_eq_true, Bool.not_eq_true',
    ← Bool.not_eq_true, b1, b2, b3, not_le]
  tauto

/-- C10 (counterexample): for the pipe `longHadronQ` (t = 2 >= 0, cone_z_end = 10,
mm = 1/10), the point (0, 0, 2011) belongs to both polycones, is left uncut for
the vacuum polycone although it is outside {z <= cone_z_end}, and is cut away
from the matter polycone: the region left uncut for the vacuum is not contained
in the region left uncut for the matter. -/
theorem C10_counterexample :
    (0 : ℚ) ≤ getAttrOrDefault longHadronQ.thickness 0
      ∧ (zplane_to_polycones envQ longHadronQ).2.Contains farQ = true
      ∧ (zplane_to_polycones envQ longHadronQ).1.Contains farQ = true
      ∧ ¬ (farQ.z ≤ getAttrOrDefault longHadronQ.cone_z_end 0)
      ∧ (create_volumes_2.cut envQ longHadronQ (zplane_to_polycones envQ longHadronQ).2
            (create_volumes_2.p_vac_1 longHadronQ) (create_volumes_2.p_vac_2 longHadronQ)
            (create_volumes_2.p_vac_3 longHadronQ)).Contains farQ = true
      ∧ (create_volumes_2.cut envQ longHadronQ (zplane_to_polycones envQ longHadronQ).1
            (create_volumes_2.p_mat_1 longHadronQ) (create_volumes_2.p_mat_2 longHadronQ)
            (create_volumes_2.p_mat_3 longHadronQ)).Contains farQ = false
      ∧ farQ ∈ (create_volumes_2.pipe2_polycones_vac_cut envQ longHadronQ).points
      ∧ farQ ∉ (create_volumes_2.mat_cut_extended envQ longHadronQ).points := by
  refine ⟨?_, ?_, ?_, ?_, ?_, ?_, ?_, ?_⟩ <;>
    norm_num [Solid.points, Solid.Contains, create_volumes_2.mat_cut_extended,
      create_volumes_2.pipe2_polycones_vac_cut, create_volumes_2.cut,
      create_volumes_2.tb_mat, create_volumes_2.tb_vac, create_volumes_2.extension_tf,
      create_volumes_2.tf, create_volumes_2.box_cut,
      create_volumes_2.box_cut_sizex, create_volumes_2.box_cut_sizey,
      create_volumes_2.box_cut_sizez, create_volumes_2.box_centre_1,
      create_volumes_2.box_centre_2, create_volumes_2.box_centre_3,
      create_volumes_2.p_mat_1, create_volumes_2.p_mat_2, create_volumes_2.p_mat_3,
      create_volumes_2.p_vac_1, create_volumes_2.p_vac_2, create_volumes_2.p_vac_3,
      zplane_to_polycones, zplane_loop, zplane_push, Polycone.Contains,
      Polycone.sectionsContain, Tube.Contains, Box.Contains, Transform3D.MasterToLocal,
      Transform3D.mul_def, Transform3D.mul, Transform3D.ofPosition, Transform3D.ofRotationY,
      Transform3D.Identity, RotationY.ofAngle, getAttrOrDefault, envQ, longHadronQ, farQ,
      lt_abs, abs_le]

/-- C10 (amended): in `create_volumes_2` the cutting box has half-length 10000 mm
on each axis and the face of each box nearest the retained region is, for matter
versus vacuum, x = h versus x = h - t, z = cone_z_end + t versus z = cone_z_end,
z = cone_z_start - t versus z = cone_z_start, so the faces are exactly t apart.
For t >= 0, tf a rotation (cos^2 + sin^2 = 1) and the vacuum faces within the
reach of the boxes (h - t >= -10000 mm, cone_z_end >= -10000 mm,
cone_z_start <= 10000 mm), among the points whose coordinates (x, y, z) in the
frame of tf are within 10000 mm of the origin on each axis: the three cuts keep
of the vacuum polycone exactly the points with x < h - t and
cone_z_start < z < cone_z_end, of the matter polycone exactly those with x < h
and cone_z_start - t < z < cone_z_end + t, and whatever the vacuum cuts leave
uncut the matter cuts leave uncut. -/
theorem C10_cuts_within_reach (E : Env K) (x_pipe2 : PipeXml K)
    (ht : 0 ≤ getAttrOrDefault x_pipe2.thickness 0)
    (hrot : E.cos |getAttrOrDefault x_pipe2.crossing_angle 0| ^ 2
        + E.sin |getAttrOrDefault x_pipe2.crossing_angle 0| ^ 2 = 1)
    (hh : -(10000 * E.mm)
        ≤ getAttrOrDefault x_pipe2.horizontal_offset 0 - getAttrOrDefault x_pipe2.thickness 0)
    (he : -(10000 * E.mm) ≤ getAttrOrDefault x_pipe2.cone_z_end 0)
    (hs : getAttrOrDefault x_pipe2.cone_z_start 0 ≤ 10000 * E.mm) :
    ((create_volumes_2.box_cut E).dx = 10000 * E.mm
        ∧ (create_volumes_2.box_cut E).dy = 10000 * E.mm
        ∧ (create_volumes_2.box_cut E).dz = 10000 * E.mm)
      ∧ (create_volumes_2.face_x E (create_volumes_2.p_mat_1 x_pipe2)
            = getAttrOrDefault x_pipe2.horizontal_offset 0
        ∧ create_volumes_2.face_x E (create_volumes_2.p_vac_1 x_pipe2)
            = getAttrOrDefault x_pipe2.horizontal_offset 0
              - getAttrOrDefault x_pipe2.thickness 0
        ∧ create_volumes_2.face_z_end E (create_volumes_2.p_mat_2 x_pipe2)
            = getAttrOrDefault x_pipe2.cone_z_end 0 + getAttrOrDefault x_pipe2.thickness 0
        ∧ create_volumes_2.face_z_end E (create_volumes_2.p_vac_2 x_pipe2)
            = getAttrOrDefault x_pipe2.cone_z_end 0
        ∧ create_volumes_2.face_z_start E (create_volumes_2.p_mat_3 x_pipe2)
            = getAttrOrDefault x_pipe2.cone_z_start 0 - getAttrOrDefault x_pipe2.thickness 0
        ∧ create_volumes_2.face_z_start E (create_volumes_2.p_vac_3 x_pipe2)
            = getAttrOrDefault x_pipe2.cone_z_start 0)
      ∧ (create_volumes_2.face_x E (create_volumes_2.p_mat_1 x_pipe2)
            - create_volumes_2.face_x E (create_volumes_2.p_vac_1 x_pipe2)
          = getAttrOrDefault x_pipe2.thickness 0
        ∧ create_volumes_2.face_z_end E (create_volumes_2.p_mat_2 x_pipe2)
            - create_volumes_2.face_z_end E (create_volumes_2.p_vac_2 x_pipe2)
          = getAttrOrDefault x_pipe2.thickness 0
        ∧ create_volumes_2.face_z_start E (create_volumes_2.p_vac_3 x_pipe2)
            - create_volumes_2.face_z_start E (create_volumes_2.p_mat_3 x_pipe2)
          = getAttrOrDefault x_pipe2.thickness 0)
      ∧ (create_volumes_2.pipe2_polycones_vac_cut E x_pipe2
          = Solid.UnionSolid
              (create_volumes_2.cut E x_pipe2 (zplane_to_polycones E x_pipe2).2
                (create_volumes_2.p_vac_1 x_pipe2) (create_volumes_2.p_vac_2 x_pipe2)
                (create_volumes_2.p_vac_3 x_pipe2))
              (Solid.tube (create_volumes_2.tb_vac E x_pipe2))
              (create_volumes_2.extension_tf E x_pipe2)
        ∧ create_volumes_2.mat_cut_extended E x_pipe2
          = Solid.UnionSolid
              (create_volumes_2.cut E x_pipe2 (zplane_to_polycones E x_pipe2).1
                (create_volumes_2.p_mat_1 x_pipe2) (create_volumes_2.p_mat_2 x_pipe2)
                (create_volumes_2.p_mat_3 x_pipe2))
              (Solid.tube (create_volumes_2.tb_mat E x_pipe2))
              (create_volumes_2.extension_tf E x_pipe2))
      ∧ (∀ p : Position K,
          |((create_volumes_2.tf E x_pipe2).MasterToLocal p).x| ≤ 10000 * E.mm
          → |((create_volumes_2.tf E x_pipe2).MasterToLocal p).y| ≤ 10000 * E.mm
          → |((create_volumes_2.tf E x_pipe2).MasterToLocal p).z| ≤ 10000 * E.mm
          → (((create_volumes_2.cut E x_pipe2 (zplane_to_polycones E x_pipe2).2
                (create_volumes_2.p_vac_1 x_pipe2) (create_volumes_2.p_vac_2 x_pipe2)
                (create_volumes_2.p_vac_3 x_pipe2)).Contains p = true
              ↔ (zplane_to_polycones E x_pipe2).2.Contains p = true
                ∧ ((create_volumes_2.tf E x_pipe2).MasterToLocal p).x
                    < getAttrOrDefault x_pipe2.horizontal_offset 0
                      - getAttrOrDefault x_pipe2.thickness 0
                ∧ getAttrOrDefault x_pipe2.cone_z_start 0
                    < ((create_volumes_2.tf E x_pipe2).MasterToLocal p).z
                ∧ ((create_volumes_2.tf E x_pipe2).MasterToLocal p).z
                    < getAttrOrDefault x_pipe2.cone_z_end 0)
            ∧ ((create_volumes_2.cut E x_pipe2 (zplane_to_polycones E x_pipe2).1
                (create_volumes_2.p_mat_1 x_pipe2) (create_volumes_2.p_mat_2 x_pipe2)
                (create_volumes_2.p_mat_3 x_pipe2)).Contains p = true
              ↔ (zplane_to_polycones E x_pipe2).1.Contains p = true
                ∧ ((create_volumes_2.tf E x_pipe2).MasterToLocal p).x
                    < getAttrOrDefault x_pipe2.horizontal_offset 0
                ∧ getAttrOrDefault x_pipe2.cone_z_start 0
                      - getAttrOrDefault x_pipe2.thickness 0
                    < ((create_volumes_2.tf E x_pipe2).MasterToLocal p).z
                ∧ ((create_volumes_2.tf E x_pipe2).MasterToLocal p).z
                    < getAttrOrDefault x_pipe2.cone_z_end 0
                      + getAttrOrDefault x_pipe2.thickness 0)
            ∧ ∀ c : Polycone K,
                (create_volumes_2.cut E x_pipe2 c
                  (create_volumes_2.p_vac_1 x_pipe2) (create_volumes_2.p_vac_2 x_pipe2)
                  (create_volumes_2.p_vac_3 x_pipe2)).Contains p = true
                → (create_volumes_2.cut E x_pipe2 c
                  (create_volumes_2.p_mat_1 x_pipe2) (create_volumes_2.p_mat_2 x_pipe2)
                  (create_volumes_2.p_mat_3 x_pipe2)).Contains p = true)) := by
  have hf := create_volumes_2.cut_faces E x_pipe2 ht
  refine ⟨hf.1, hf.2.1, hf.2.2.2.2, ⟨rfl, rfl⟩, ?_⟩
  intro p hx hy hz
  have hv := fun c : Polycone K =>
    create_volumes_2.cut_contains_iff E x_pipe2 c
      (getAttrOrDefault x_pipe2.horizontal_offset 0 - getAttrOrDefault x_pipe2.thickness 0)
      (getAttrOrDefault x_pipe2.cone_z_end 0) (getAttrOrDefault x_pipe2.cone_z_start 0)
      p hrot hh he hs hx hy hz
  have hm := fun c : Polycone K =>
    create_volumes_2.cut_contains_iff E x_pipe2 c
      (getAttrOrDefault x_pipe2.horizontal_offset 0)
      (getAttrOrDefault x_pipe2.cone_z_end 0 + getAttrOrDefault x_pipe2.thickness 0)
      (getAttrOrDefault x_pipe2.cone_z_start 0 - getAttrOrDefault x_pipe2.thickness 0)
      p hrot (by linarith) (by linarith) (by linarith) hx hy hz
  refine ⟨hv _, hm _, fun c hc => ?_⟩
  have h1 := (hv c).1 hc
  exact (hm c).2 ⟨h1.1, by linarith [h1.2.1], by linarith [h1.2.2.1], by linarith [h1.2.2.2]⟩

/-- Evaluation of C10 (amended) on the pipe `hadronQ` (t = 2, h = 100, cone from
z = 0 to z = 10, mm = 1/10) at the point (3/2, 0, 5): the hypotheses hold and the
point is kept by the vacuum cuts, hence by the matter cuts. -/
theorem C10_cuts_within_reach_witness :
    ((0 : ℚ) ≤ getAttrOrDefault hadronQ.thickness 0
        ∧ envQ.cos |getAttrOrDefault hadronQ.crossing_angle 0| ^ 2
            + envQ.sin |getAttrOrDefault hadronQ.crossing_angle 0| ^ 2 = 1
        ∧ -(10000 * envQ.mm)
            ≤ getAttrOrDefault hadronQ.horizontal_offset 0 - getAttrOrDefault hadronQ.thickness 0
        ∧ -(10000 * envQ.mm) ≤ getAttrOrDefault hadronQ.cone_z_end 0
        ∧ getAttrOrDefault hadronQ.cone_z_start 0 ≤ 10000 * envQ.mm)
      ∧ (create_volumes_2.cut envQ hadronQ (zplane_to_polycones envQ hadronQ).2
            (create_volumes_2.p_vac_1 hadronQ) (create_volumes_2.p_vac_2 hadronQ)
            (create_volumes_2.p_vac_3 hadronQ)).Contains pointQ = true
      ∧ (create_volumes_2.cut envQ hadronQ (zplane_to_polycones envQ hadronQ).2
            (create_volumes_2.p_mat_1 hadronQ) (create_volumes_2.p_mat_2 hadronQ)
            (create_volumes_2.p_mat_3 hadronQ)).Contains pointQ = true := by
  have ht : (0 : ℚ) ≤ getAttrOrDefault hadronQ.thickness 0 := by
    norm_num [getAttrOrDefault, hadronQ]
  have hrot : envQ.cos |getAttrOrDefault hadronQ.crossing_angle 0| ^ 2
      + envQ.sin |getAttrOrDefault hadronQ.crossing_angle 0| ^ 2 = 1 := by
    norm_num [envQ]
  have hh : -(10000 * envQ.mm)
      ≤ getAttrOrDefault hadronQ.horizontal_offset 0 - getAttrOrDefault hadronQ.thickness 0 := by
    norm_num [getAttrOrDefault, hadronQ, envQ]
  have he : -(10000 * envQ.mm) ≤ getAttrOrDefault hadronQ.cone_z_end 0 := by
    norm_num [getAttrOrDefault, hadronQ, envQ]
  have hs : getAttrOrDefault hadronQ.cone_z_start 0 ≤ 10000 * envQ.mm := by
    norm_num [getAttrOrDefault, hadronQ, envQ]
  have hq : (create_volumes_2.tf envQ hadronQ).MasterToLocal pointQ = pointQ := by
    ext <;>
      norm_num [create_volumes_2.tf, Transform3D.MasterToLocal, Transform3D.mul_def,
        Transform3D.mul, Transform3D.ofPosition, Transform3D.ofRotationY, RotationY.ofAngle,
        getAttrOrDefault, envQ, hadronQ, pointQ]
  have h := (C10_cuts_within_reach envQ hadronQ ht hrot hh he hs).2.2.2.2 pointQ
    (by rw [hq]; norm_num [pointQ, envQ, abs_le])
    (by rw [hq]; norm_num [pointQ, envQ, abs_le])
    (by rw [hq]; norm_num [pointQ, envQ, abs_le])
  have hv : (create_volumes_2.cut envQ hadronQ (zplane_to_polycones envQ hadronQ).2
      (create_volumes_2.p_vac_1 hadronQ) (create_volumes_2.p_vac_2 hadronQ)
      (create_volumes_2.p_vac_3 hadronQ)).Contains pointQ = true := by
    rw [h.1, hq]
    norm_num [zplane_to_polycones, zplane_loop, zplane_push, Polycone.Contains,
      Polycone.sectionsContain, getAttrOrDefault, hadronQ, pointQ]
  exact ⟨⟨ht, hrot, hh, he, hs⟩, hv, h.2.2 _ hv⟩

end CutTheorems

section ExtentTheorems

variable {K : Type} [LinearOrderedField K]

/-- The central volume, placed at `central_offset`, has z range [-U, D]. -/
theorem central_zExtent (E : Env K) (x_det : DetXml K) :
    (create_detector E x_det).zExtent (create_detector E x_det).central_placement
      = some (-x_det.IP_pipe.upstream_straight_length,
          x_det.IP_pipe.downstream_straight_length) := by
  simp only [create_detector, DetectorGeometry.zExtent, DetectorGeometry.assembly_z,
    Volume.tube?, central_tube, central_offset, upstream_straight_length,
    downstream_straight_length, Option.map_some', Option.some.injEq, Prod.mk.injEq]
  constructor <;> ring

/-- The upstream fake beampipe, placed in the central volume, has absolute centre
-U/2 and z range [-U, 0]. -/
theorem upstream_acts_zExtent (E : Env K) (x_det : DetXml K) :
    (create_detector E x_det).assembly_z (upstream_acts_placement E x_det)
        = -x_det.IP_pipe.upstream_straight_length / 2
      ∧ (create_detector E x_det).zExtent (upstream_acts_placement E x_det)
        = some (-x_det.IP_pipe.upstream_straight_length, 0) := by
  simp only [create_detector, upstream_acts_placement, DetectorGeometry.zExtent,
    DetectorGeometry.assembly_z, Volume.tube?, upstream_IP_acts_beampipe, central_offset,
    upstream_straight_length, downstream_straight_length, Option.map_some',
    Option.some.injEq, Prod.mk.injEq]
  refine ⟨?_, ?_, ?_⟩ <;> ring

/-- The downstream fake beampipe, placed in the central volume, has absolute
centre D/2 and z range [0, D]. -/
theorem downstream_acts_zExtent (E : Env K) (x_det : DetXml K) :
    (create_detector E x_det).assembly_z (downstream_acts_placement E x_det)
        = x_det.IP_pipe.downstream_straight_length / 2
      ∧ (create_detector E x_det).zExtent (downstream_acts_placement E x_det)
        = some (0, x_det.IP_pipe.downstream_straight_length) := by
  simp only [create_detector, downstream_acts_placement, DetectorGeometry.zExtent,
    DetectorGeometry.assembly_z, Volume.tube?, downstream_IP_acts_beampipe, central_offset,
    upstream_straight_length, downstream_straight_length, Option.map_some',
    Option.some.injEq, Prod.mk.injEq]
  refine ⟨?_, ?_, ?_⟩ <;> ring

/-- The ten IP placements of lines 126-138, by volume name and mother, with their
z ranges in the assembly frame: [-U, 0] for the five upstream layers and [0, D]
for the five downstream layers. -/
theorem IP_placements_zExtent (E : Env K) (x_det : DetXml K) :
    (create_detector E x_det).IP_placements.map
        (fun pv => (pv.volume.name, pv.mother, (create_detector E x_det).zExtent pv))
      = [("v_upstream_IP_vacuum_fill", Mother.assembly,
            some (-x_det.IP_pipe.upstream_straight_length, 0)),
         ("v_upstream_IP_acts_beampipe", Mother.central_volume,
            some (-x_det.IP_pipe.upstream_straight_length, 0)),
         ("v_upstream_IP_vacuum_padding", Mother.assembly,
            some (-x_det.IP_pipe.upstream_straight_length, 0)),
         ("v_upstream_IP_gold", Mother.assembly,
            some (-x_det.IP_pipe.upstream_straight_length, 0)),
         ("v_upstream_IP_tube", Mother.assembly,
            some (-x_det.IP_pipe.upstream_straight_length, 0)),
         ("v_downstream_IP_vacuum_fill", Mother.assembly,
            some (0, x_det.IP_pipe.downstream_straight_length)),
         ("v_downstream_IP_acts_beampipe", Mother.central_volume,
            some (0, x_det.IP_pipe.downstream_straight_length)),
         ("v_downstream_IP_vacuum_padding", Mother.assembly,
            some (0, x_det.IP_pipe.downstream_straight_length)),
         ("v_downstream_IP_gold", Mother.assembly,
            some (0, x_det.IP_pipe.downstream_straight_length)),
         ("v_downstream_IP_tube", Mother.assembly,
            some (0, x_det.IP_pipe.downstream_straight_length))] := by
  simp only [create_detector, DetectorGeometry.zExtent, DetectorGeometry.assembly_z,
    Volume.tube?, upstream_IP_vacuum_fill, upstream_IP_acts_beampipe,
    upstream_IP_vacuum_padding, upstream_IP_gold, upstream_IP_tube,
    downstream_IP_vacuum_fill, downstream_IP_acts_beampipe, downstream_IP_vacuum_padding,
    downstream_IP_gold, downstream_IP_tube, central_offset, upstream_straight_length,
    downstream_straight_length, List.map_cons, List.map_nil, Option.map_some',
    List.cons.injEq, Prod.mk.injEq, Option.some.injEq, true_and, and_true]
  refine ⟨⟨?_, ?_⟩, ⟨?_, ?_⟩, ⟨?_, ?_⟩, ⟨?_, ?_⟩, ⟨?_, ?_⟩, ⟨?_, ?_⟩, ⟨?_, ?_⟩, ⟨?_, ?_⟩,
    ⟨?_, ?_⟩, ⟨?_, ?_⟩⟩ <;> ring

/-- C11: for upstream_straight_length U >= 0 and downstream_straight_length
D >= 0, the central volume (half-length (U+D)/2, placed in the assembly at
central_offset = -(U-D)/2) occupies z in [-U, D]; the upstream fake ACTS beampipe,
placed in the central volume at -U/2 - central_offset, has absolute centre -U/2
and occupies [-U, 0] like the other four upstream layers; the downstream one has
absolute centre D/2 and occupies [0, D]; both have the rmin and rmax of the
central tube, lie within its z range, and share exactly the coordinate z = 0. -/
theorem C11_central_volume_and_daughters (E : Env K) (x_det : DetXml K)
    (hU : 0 ≤ x_det.IP_pipe.upstream_straight_length)
    (hD : 0 ≤ x_det.IP_pipe.downstream_straight_length) :
    ((create_detector E x_det).central_volume.tube? = some (central_tube E x_det.IP_pipe)
        ∧ (central_tube E x_det.IP_pipe).dz
            = (x_det.IP_pipe.upstream_straight_length
                + x_det.IP_pipe.downstream_straight_length) / 2
        ∧ (create_detector E x_det).central_placement.mother = Mother.assembly
        ∧ (create_detector E x_det).central_placement.volume
            = (create_detector E x_det).central_volume
        ∧ (create_detector E x_det).central_placement.position.z
            = central_offset x_det.IP_pipe
        ∧ central_offset x_det.IP_pipe
            = -(x_det.IP_pipe.upstream_straight_length
                - x_det.IP_pipe.downstream_straight_length) / 2
        ∧ (create_detector E x_det).zExtent (create_detector E x_det).central_placement
            = some (-x_det.IP_pipe.upstream_straight_length,
                x_det.IP_pipe.downstream_straight_length))
      ∧ (upstream_acts_placement E x_det ∈ (create_detector E x_det).IP_placements
        ∧ (upstream_acts_placement E x_det).volume.tube?
            = some (upstream_IP_acts_beampipe E x_det.IP_pipe)
        ∧ (create_detector E x_det).assembly_z (upstream_acts_placement E x_det)
            = -x_det.IP_pipe.upstream_straight_length / 2
        ∧ (create_detector E x_det).zExtent (upstream_acts_placement E x_det)
            = some (-x_det.IP_pipe.upstream_straight_length, 0))
      ∧ (downstream_acts_placement E x_det ∈ (create_detector E x_det).IP_placements
        ∧ (downstream_acts_placement E x_det).volume.tube?
            = some (downstream_IP_acts_beampipe E x_det.IP_pipe)
        ∧ (create_detector E x_det).assembly_z (downstream_acts_placement E x_det)
            = x_det.IP_pipe.downstream_straight_length / 2
        ∧ (create_detector E x_det).zExtent (downstream_acts_placement E x_det)
            = some (0, x_det.IP_pipe.downstream_straight_length))
      ∧ (create_detector E x_det).IP_placements.map
          (fun pv => (pv.volume.name, pv.mother, (create_detector E x_det).zExtent pv))
        = [("v_upstream_IP_vacuum_fill", Mother.assembly,
              some (-x_det.IP_pipe.upstream_straight_length, 0)),
           ("v_upstream_IP_acts_beampipe", Mother.central_volume,
              some (-x_det.IP_pipe.upstream_straight_length, 0)),
           ("v_upstream_IP_vacuum_padding", Mother.assembly,
              some (-x_det.IP_pipe.upstream_straight_length, 0)),
           ("v_upstream_IP_gold", Mother.assembly,
              some (-x_det.IP_pipe.upstream_straight_length, 0)),
           ("v_upstream_IP_tube", Mother.assembly,
              some (-x_det.IP_pipe.upstream_straight_length, 0)),
           ("v_downstream_IP_vacuum_fill", Mother.assembly,
              some (0, x_det.IP_pipe.downstream_straight_length)),
           ("v_downstream_IP_acts_beampipe", Mother.central_volume,
              some (0, x_det.IP_pipe.downstream_straight_length)),
           ("v_downstream_IP_vacuum_padding", Mother.assembly,
              some (0, x_det.IP_pipe.downstream_straight_length)),
           ("v_downstream_IP_gold", Mother.assembly,
              some (0, x_det.IP_pipe.downstream_straight_length)),
           ("v_downstream_IP_tube", Mother.assembly,
              some (0, x_det.IP_pipe.downstream_straight_length))]
      ∧ ((upstream_IP_acts_beampipe E x_det.IP_pipe).rmin = (central_tube E x_det.IP_pipe).rmin
        ∧ (upstream_IP_acts_beampipe E x_det.IP_pipe).rmax
            = (central_tube E x_det.IP_pipe).rmax
        ∧ (downstream_IP_acts_beampipe E x_det.IP_pipe).rmin
            = (central_tube E x_det.IP_pipe).rmin
        ∧ (downstream_IP_acts_beampipe E x_det.IP_pipe).rmax
            = (central_tube E x_det.IP_pipe).rmax)
      ∧ ((∀ z : K, (create_detector E x_det).occupies (upstream_acts_placement E x_det) z
            → (create_detector E x_det).occupies (create_detector E x_det).central_placement z)
        ∧ (∀ z : K, (create_detector E x_det).occupies (downstream_acts_placement E x_det) z
            → (create_detector E x_det).occupies
                (create_detector E x_det).central_placement z))
      ∧ (∀ z : K,
          ((create_detector E x_det).occupies (upstream_acts_placement E x_det) z
            ∧ (create_detector E x_det).occupies (downstream_acts_placement E x_det) z)
          ↔ z = 0) := by
  have hc := central_zExtent E x_det
  have hu := upstream_acts_zExtent E x_det
  have hd := downstream_acts_zExtent E x_det
  refine ⟨⟨rfl, ?_, rfl, rfl, rfl, ?_, hc⟩, ⟨?_, rfl, hu.1, hu.2⟩, ⟨?_, rfl, hd.1, hd.2⟩,
    IP_placements_zExtent E x_det, ⟨?_, ?_, ?_, ?_⟩, ⟨?_, ?_⟩, ?_⟩
  · simp only [central_tube, upstream_straight_length, downstream_straight_length]
    ring
  · simp only [central_offset, upstream_straight_length, downstream_straight_length]
    ring
  · simp [create_detector, upstream_acts_placement]
  · simp [create_detector, downstream_acts_placement]
  · simp only [upstream_IP_acts_beampipe, central_tube]
    ring
  · simp only [upstream_IP_acts_beampipe, central_tube]
    ring
  · simp only [downstream_IP_acts_beampipe, central_tube]
    ring
  · simp only [downstream_IP_acts_beampipe, central_tube]
    ring
  · intro z
    simp only [DetectorGeometry.occupies, hc, hu.2]
    rintro ⟨h1, h2⟩
    exact ⟨h1, by linarith⟩
  · intro z
    simp only [DetectorGeometry.occupies, hc, hd.2]
    rintro ⟨h1, h2⟩
    exact ⟨by linarith, h2⟩
  · intro z
    simp only [DetectorGeometry.occupies, hu.2, hd.2]
    constructor
    · rintro ⟨⟨_, h2⟩, ⟨h3, _⟩⟩
      exact le_antisymm h2 h3
    · rintro rfl
      exact ⟨⟨by linarith, le_refl _⟩, ⟨le_refl _, hD⟩⟩

/-- Evaluation of C11 on `detXmlQ` (U = 8, D = 7): the central volume occupies
[-8, 7] and the upstream fake beampipe [-8, 0]. -/
theorem C11_central_volume_and_daughters_witness :
    ((0 : ℚ) ≤ detXmlQ.IP_pipe.upstream_straight_length
        ∧ (0 : ℚ) ≤ detXmlQ.IP_pipe.downstream_straight_length)
      ∧ (create_detector envQ detXmlQ).zExtent (create_detector envQ detXmlQ).central_placement
          = some (-8, 7)
      ∧ (create_detector envQ detXmlQ).zExtent (upstream_acts_placement envQ detXmlQ)
          = some (-8, 0) := by
  have hU : (0 : ℚ) ≤ detXmlQ.IP_pipe.upstream_straight_length := by
    norm_num [detXmlQ, ipPipeQ]
  have hD : (0 : ℚ) ≤ detXmlQ.IP_pipe.downstream_straight_length := by
    norm_num [detXmlQ, ipPipeQ]
  have h := C11_central_volume_and_daughters envQ detXmlQ hU hD
  exact ⟨⟨hU, hD⟩, h.1.2.2.2.2.2.2, h.2.1.2.2.2⟩

end ExtentTheorems

end IP6BeamPipe
